import Mathlib

/-!
Verification of the calgary-traffic-incidents-2024 data pipeline and query
engine against its specification.  The Python sources (Django app) are shallowly
embedded: machine floats are modelled as exact rationals wrapped in a small
type `PFloat` that keeps the non-finite values nan and inf; database tables
with a unique natural key are modelled as functions from the key to an optional
row (the relational semantics of a unique constraint); the transcendental parts
of the code (math.cos, the haversine formula over floats) are kept abstract as
function parameters of the embedded pipeline, since every claim under study is
about the surrounding filter / sort / clamp / upsert logic and not about the
numeric value of a trigonometric expression.
-/

/-! ### Calendar arithmetic (model of datetime.date / datetime.datetime) -/

/-- A calendar date, as produced by datetime.date(y, m, d).  Values built by
the embedding always come from mkDate, which performs the same range
validation as the Python constructor. -/
structure PyDate where
  y : ℤ
  m : ℤ
  d : ℤ
deriving DecidableEq, Repr

/-- Lexicographic comparison of dates, matching comparison of datetime.date
values (which are always normalized, so field-wise lexicographic order is the
chronological order). -/
def dateLe (a b : PyDate) : Bool :=
  if a.y ≠ b.y then decide (a.y < b.y)
  else if a.m ≠ b.m then decide (a.m < b.m)
  else decide (a.d ≤ b.d)

/-- Gregorian leap-year rule, as in calendar.isleap. -/
def isLeap (y : ℤ) : Bool :=
  y % 4 = 0 && (y % 100 ≠ 0 || y % 400 = 0)

/-- Number of days in a month (1-12) of year y. -/
def daysInMonth (y m : ℤ) : ℤ :=
  if m = 1 || m = 3 || m = 5 || m = 7 || m = 8 || m = 10 || m = 12 then 31
  else if m = 4 || m = 6 || m = 9 || m = 11 then 30
  else if isLeap y then 29 else 28

/-- datetime.date(y, m, d): validates 1 <= y <= 9999, 1 <= m <= 12 and
1 <= d <= days in the month, raising ValueError otherwise (modelled none). -/
def mkDate (y m d : ℤ) : Option PyDate :=
  if 1 ≤ y ∧ y ≤ 9999 ∧ 1 ≤ m ∧ m ≤ 12 ∧ 1 ≤ d ∧ d ≤ daysInMonth y m then
    some ⟨y, m, d⟩
  else none

/-- Days in all years strictly before year y (proleptic Gregorian), as in the
toordinal computation of the datetime module. -/
def daysBeforeYear (y : ℤ) : ℤ :=
  365 * (y - 1) + (y - 1) / 4 - (y - 1) / 100 + (y - 1) / 400

/-- Days in the months of year y strictly before month m. -/
def daysBeforeMonth (y m : ℤ) : ℤ :=
  (if m = 1 then 0
   else if m = 2 then 31
   else if m = 3 then 59
   else if m = 4 then 90
   else if m = 5 then 120
   else if m = 6 then 151
   else if m = 7 then 181
   else if m = 8 then 212
   else if m = 9 then 243
   else if m = 10 then 273
   else if m = 11 then 304
   else 334) + (if 2 < m ∧ isLeap y then 1 else 0)

/-- datetime.date.toordinal: day count with 0001-01-01 as day 1. -/
def dateOrdinal (x : PyDate) : ℤ :=
  daysBeforeYear x.y + daysBeforeMonth x.y x.m + x.d

/-- datetime.date.weekday: Monday = 0 .. Sunday = 6. -/
def dateWeekday (x : PyDate) : ℤ :=
  (dateOrdinal x - 1) % 7

/-- A wall-clock timestamp, as produced by datetime.strptime.  The loader
attaches the configured local timezone with timezone.make_aware, which keeps
the wall-clock fields unchanged, so the timezone is not represented: every
derived field (date, hour, weekday, month) reads the wall-clock values. -/
structure PyDateTime where
  year : ℤ
  month : ℤ
  day : ℤ
  hour : ℤ
  minute : ℤ
  second : ℤ
deriving DecidableEq, Repr

/-- The calendar date of a timestamp (datetime.date()). -/
def PyDateTime.dateOf (t : PyDateTime) : PyDate :=
  ⟨t.year, t.month, t.day⟩

/-! ### Numeric parsing (model of int(), float() and strptime) -/

/-- Value of a decimal digit character. -/
def digitVal (c : Char) : ℕ := c.toNat - 48

/-- Numeric value of a string of decimal digits. -/
def natOfDigits (cs : List Char) : ℕ :=
  cs.foldl (fun a c => a * 10 + digitVal c) 0

/-- Parses a nonempty all-decimal-digit string to a natural number. -/
def parseDigits (cs : List Char) : Option ℕ :=
  if cs ≠ [] ∧ cs.all Char.isDigit then some (natOfDigits cs) else none

/-- ASCII whitespace, as stripped by Python str.strip(). -/
def isSpaceChar (c : Char) : Bool :=
  c = ' ' || c = '\t' || c = '\n' || c = '\r'

/-- Model of str.strip(): drop whitespace from both ends.  (Defined over the
character list so that every proof can evaluate it by kernel reduction.) -/
def pyStrip (s : String) : String :=
  String.mk (((s.data.dropWhile isSpaceChar).reverse.dropWhile isSpaceChar).reverse)

/-- Lowercase one ASCII character. -/
def lowerChar (c : Char) : Char :=
  if 'A' ≤ c ∧ c ≤ 'Z' then Char.ofNat (c.toNat + 32) else c

/-- Uppercase one ASCII character. -/
def upperChar (c : Char) : Char :=
  if 'a' ≤ c ∧ c ≤ 'z' then Char.ofNat (c.toNat - 32) else c

/-- Model of str.lower() on ASCII data. -/
def pyLower (s : String) : String := String.mk (s.data.map lowerChar)

/-- Model of str.upper() on ASCII data. -/
def pyUpper (s : String) : String := String.mk (s.data.map upperChar)

/-- Split a character list on a separator character; the empty list yields
one empty group, matching str.split(sep). -/
def splitOnChar (sep : Char) (cs : List Char) : List (List Char) :=
  cs.foldr
    (fun c acc =>
      if c = sep then [] :: acc
      else
        match acc with
        | g :: rest => (c :: g) :: rest
        | [] => [[c]])
    [[]]

/-- Model of str.split(sep) for a one-character separator. -/
def pySplit (s : String) (sep : Char) : List String :=
  (splitOnChar sep s.data).map String.mk

/-- Whether the second list starts with the first. -/
def leadsWith : List Char → List Char → Bool
  | [], _ => true
  | _ :: _, [] => false
  | a :: as, b :: bs => a = b && leadsWith as bs

/-- Whether the needle occurs inside the hay (Python "needle in hay"). -/
def strContains (hay needle : List Char) : Bool :=
  match hay with
  | [] => needle.isEmpty
  | _ :: t => leadsWith needle hay || strContains t needle

/-!
Rational arithmetic helpers.  The ring operations that Batteries installs on
Rat are marked irreducible, which blocks evaluation inside the kernel; the
embedding therefore computes with mkRat and Rat.divInt (which reduce), so
that every concrete theorem below can be settled by decide.  Each helper is
extensionally the ordinary operation.
-/

/-- The rational n / d written in kernel-reducible form. -/
def qOf (n : ℤ) (d : ℕ) : ℚ := mkRat n d

/-- Division of rationals: a.num/a.den / (b.num/b.den). -/
def qdiv (a b : ℚ) : ℚ := Rat.divInt (a.num * (b.den : ℤ)) ((a.den : ℤ) * b.num)

/-- Multiplication of rationals. -/
def qmul (a b : ℚ) : ℚ := Rat.divInt (a.num * b.num) ((a.den : ℤ) * (b.den : ℤ))

/-- Addition of rationals. -/
def qadd (a b : ℚ) : ℚ :=
  Rat.divInt (a.num * (b.den : ℤ) + b.num * (a.den : ℤ)) ((a.den : ℤ) * (b.den : ℤ))

/-- Subtraction of rationals. -/
def qsub (a b : ℚ) : ℚ :=
  Rat.divInt (a.num * (b.den : ℤ) - b.num * (a.den : ℤ)) ((a.den : ℤ) * (b.den : ℤ))

/-- Absolute value of a rational. -/
def qabs (a : ℚ) : ℚ := if a.num < 0 then -a else a

/-- Python max(a, b): returns b exactly when a < b, else a. -/
def qmaxPy (a b : ℚ) : ℚ := if a < b then b else a

/-- Model of int(str): surrounding whitespace is stripped, an optional sign is
followed by decimal digits.  (Underscore digit grouping, accepted by CPython,
is not modelled; no input of the repository uses it.) -/
def parsePyInt (s : String) : Option ℤ :=
  match (pyStrip s).data with
  | '+' :: r => (parseDigits r).map (fun n => (n : ℤ))
  | '-' :: r => (parseDigits r).map (fun n => -(n : ℤ))
  | r => (parseDigits r).map (fun n => (n : ℤ))

/-- A Python float: an exact rational for the finite values, plus the
non-finite values produced by float("nan") and float("inf").  Rounding of
binary floating point is idealized away; every claim under study concerns
comparisons and control flow, not accumulated rounding error. -/
inductive PFloat where
  | nan : PFloat
  | inf : PFloat
  | ninf : PFloat
  | num : ℚ → PFloat
deriving DecidableEq, Repr

/-- IEEE strict less-than: false whenever either side is nan. -/
def pyLt : PFloat → PFloat → Bool
  | .nan, _ => false
  | _, .nan => false
  | .ninf, .ninf => false
  | .ninf, _ => true
  | _, .ninf => false
  | .inf, _ => false
  | .num _, .inf => true
  | .num a, .num b => decide (a < b)

/-- IEEE less-or-equal: false whenever either side is nan. -/
def pyLe : PFloat → PFloat → Bool
  | .nan, _ => false
  | _, .nan => false
  | .ninf, _ => true
  | .inf, .inf => true
  | .inf, _ => false
  | .num _, .inf => true
  | .num _, .ninf => false
  | .num a, .num b => decide (a ≤ b)

/-- IEEE equality: nan is not equal to anything, including itself. -/
def pyEqB : PFloat → PFloat → Bool
  | .nan, _ => false
  | _, .nan => false
  | .inf, .inf => true
  | .ninf, .ninf => true
  | .num a, .num b => decide (a = b)
  | _, _ => false

/-- Python min(a, b): returns b exactly when b < a, else a. -/
def pyMin (a b : PFloat) : PFloat :=
  if pyLt b a then b else a

/-- Division of a float by a positive rational constant (the embedding only
divides by 111.32 and by a max(1e-6, _) expression, both positive). -/
def pfDivQ : PFloat → ℚ → PFloat
  | .nan, _ => .nan
  | .inf, _ => .inf
  | .ninf, _ => .ninf
  | .num a, q => .num (qdiv a q)

/-- Sum of a rational and a float. -/
def pfAddQ (q : ℚ) : PFloat → PFloat
  | .nan => .nan
  | .inf => .inf
  | .ninf => .ninf
  | .num a => .num (qadd q a)

/-- Difference of a rational and a float. -/
def pfSubQ (q : ℚ) : PFloat → PFloat
  | .nan => .nan
  | .inf => .ninf
  | .ninf => .inf
  | .num a => .num (qsub q a)

/-- Mantissa of a float literal: digits with an optional decimal point, at
least one digit overall. -/
def parseMantissa (s : String) : Option ℚ :=
  match pySplit s '.' with
  | [i] => (parseDigits i.data).map (fun n => mkRat n 1)
  | [i, f] =>
    if (i.data ++ f.data).all Char.isDigit ∧ i.length + f.length ≠ 0 then
      some (mkRat (natOfDigits (i.data ++ f.data)) (10 ^ f.length))
    else none
  | _ => none

/-- Exponent part of a float literal: optional sign and digits. -/
def parseExponent (s : String) : Option ℤ :=
  match s.data with
  | '+' :: r => (parseDigits r).map (fun n => (n : ℤ))
  | '-' :: r => (parseDigits r).map (fun n => -(n : ℤ))
  | r => (parseDigits r).map (fun n => (n : ℤ))

/-- Unsigned decimal float literal with optional exponent. -/
def parseUnsignedFloat (s : String) : Option ℚ :=
  match pySplit s 'e' with
  | [m] => parseMantissa m
  | [m, ex] => do
    let q ← parseMantissa m
    let e ← parseExponent ex
    if 0 ≤ e then some (Rat.divInt (q.num * (10 ^ e.toNat : ℕ)) q.den)
    else some (Rat.divInt q.num (q.den * (10 ^ (-e).toNat : ℕ)))
  | _ => none

/-- Body of float(str) once the sign is stripped: the special tokens nan and
inf(inity), else a decimal literal. -/
def parsePyFloatCore (neg : Bool) (body : String) : Option PFloat :=
  if body = "nan" then some .nan
  else if body = "inf" ∨ body = "infinity" then
    some (if neg then .ninf else .inf)
  else (parseUnsignedFloat body).map (fun q => .num (if neg then -q else q))

/-- Model of float(str): strip, lowercase, optional sign, then nan / inf /
decimal literal.  none models the ValueError raised on anything else. -/
def parsePyFloat (s : String) : Option PFloat :=
  let t := pyLower (pyStrip s)
  match t.data with
  | '+' :: r => parsePyFloatCore false (String.mk r)
  | '-' :: r => parsePyFloatCore true (String.mk r)
  | _ => parsePyFloatCore false t

/-- Rounding half-to-even to an integer, as Python round() on a value exactly
between two integers. -/
def rqRound (q : ℚ) : ℤ :=
  let f := q.num.fdiv q.den
  let rnum := q.num - f * q.den
  if 2 * rnum < (q.den : ℤ) then f
  else if (q.den : ℤ) < 2 * rnum then f + 1
  else if f % 2 = 0 then f else f + 1

/-- Model of round(x, 3). -/
def round3 (q : ℚ) : ℚ := mkRat (rqRound (Rat.divInt (q.num * 1000) q.den)) 1000

/-- Model of round(x, 4), used for the intersection key. -/
def round4 (q : ℚ) : ℚ := mkRat (rqRound (Rat.divInt (q.num * 10000) q.den)) 10000

/-- Truncation toward zero, as int(float). -/
def truncQ (q : ℚ) : ℤ := if 0 ≤ q then ⌊q⌋ else -⌊-q⌋

/-! ### Timestamp parsing (model of load_collisions.parse_dt_local) -/

/-- Numeric field of a strptime pattern: decimal digits. -/
def parseNatStr (s : String) : Option ℕ := parseDigits s.data

/-- Model of datetime.strptime(s, "%Y/%m/%d %I:%M:%S %p"): 12-hour clock with
AM/PM marker, full calendar validation. -/
def parseDT12 (s : String) : Option PyDateTime :=
  match pySplit s ' ' with
  | [ds, ts, ap] =>
    (match pySplit ds '/', pySplit ts ':' with
     | [ys, ms, dss], [hs, mis, ss] => do
       let y ← parseNatStr ys
       let m ← parseNatStr ms
       let d ← parseNatStr dss
       let h ← parseNatStr hs
       let mi ← parseNatStr mis
       let sec ← parseNatStr ss
       let _ ← mkDate y m d
       if 1 ≤ h ∧ h ≤ 12 ∧ mi ≤ 59 ∧ sec ≤ 61 then
         let ap' := pyUpper ap
         if ap' = "AM" then
           some ⟨y, m, d, if h = 12 then 0 else h, mi, sec⟩
         else if ap' = "PM" then
           some ⟨y, m, d, if h = 12 then 12 else h + 12, mi, sec⟩
         else none
       else none
     | _, _ => none)
  | _ => none

/-- Model of datetime.strptime(s, "%Y-%m-%d %H:%M:%S"): 24-hour clock. -/
def parseDT24 (s : String) : Option PyDateTime :=
  match pySplit s ' ' with
  | [ds, ts] =>
    (match pySplit ds '-', pySplit ts ':' with
     | [ys, ms, dss], [hs, mis, ss] => do
       let y ← parseNatStr ys
       let m ← parseNatStr ms
       let d ← parseNatStr dss
       let h ← parseNatStr hs
       let mi ← parseNatStr mis
       let sec ← parseNatStr ss
       let _ ← mkDate y m d
       if h ≤ 23 ∧ mi ≤ 59 ∧ sec ≤ 61 then
         some ⟨y, m, d, h, mi, sec⟩
       else none
     | _, _ => none)
  | _ => none

/-- load_collisions.parse_dt_local: strip, reject empty, primary 12-hour
format with a 24-hour fallback.  timezone.make_aware keeps the wall-clock
fields, which are all the embedding retains. -/
def parse_dt_local (s : String) : Option PyDateTime :=
  let t := pyStrip s
  if t = "" then none
  else
    match parseDT12 t with
    | some dt => some dt
    | none => parseDT24 t

/-! ### Data model (core/models.py) -/

/-- core.models.Quadrant (TextChoices NW NE SW SE UNK). -/
inductive Quadrant where
  | NW | NE | SW | SE | UNK
deriving DecidableEq, Repr

/-- The stored code of a quadrant value. -/
def quadrantCode : Quadrant → String
  | .NW => "NW"
  | .NE => "NE"
  | .SW => "SW"
  | .SE => "SE"
  | .UNK => "UNK"

/-- core.models.WeatherDay (TextChoices DRY WET SNY). -/
inductive WeatherDay where
  | DRY | WET | SNY
deriving DecidableEq, Repr

/-- core.models.WeatherStation as seen by the query engine: primary key id
plus the unique climate_id, display name and coordinates. -/
structure Station where
  id : ℕ
  climate_id : String
  name : String
  longitude : ℚ
  latitude : ℚ
deriving DecidableEq, Repr

/-- core.models.Collision.  The intersection_key string
"round(lat,4):round(lon,4)" is modelled as the pair of rounded coordinates;
no claim depends on its textual form. -/
structure CollisionRec where
  collision_id : String
  occurred_at : PyDateTime
  modified_at : Option PyDateTime
  date : PyDate
  hour : ℤ
  weekday : ℤ
  month : ℤ
  quadrant : Quadrant
  longitude : ℚ
  latitude : ℚ
  count : ℤ
  description : String
  location_text : String
  intersection_key : ℚ × ℚ
  nearest_station_id : Option ℕ
deriving DecidableEq, Repr

/-- core.models.CityDailyWeather. -/
structure CityRec where
  date : PyDate
  weather_day_city : Option WeatherDay
  freeze_day_city : Option Bool
  t_max_avg : Option ℚ
  t_min_avg : Option ℚ
  precip_any : Option Bool
  snow_any : Option Bool
  agreement_ratio : Option ℚ
deriving DecidableEq, Repr

/-- core.models.WeatherObservation as seen by the query engine (gust filter):
station foreign key, date, and the gust speed column. -/
structure GustObs where
  station_id : ℕ
  date : PyDate
  gust_kmh : Option ℤ
deriving DecidableEq, Repr

/-- The query-side database state: the four tables the filter engine reads. -/
structure Db where
  stations : List Station
  observations : List GustObs
  city : List CityRec
  collisions : List CollisionRec

/-! ### Filter engine (api/filters.py) -/

/-- api.filters._str_to_bool. -/
def str_to_bool (val : Option String) : Option Bool :=
  match val with
  | none => none
  | some v =>
    let s := pyLower (pyStrip v)
    if s = "1" ∨ s = "true" ∨ s = "t" ∨ s = "yes" ∨ s = "y" then some true
    else if s = "0" ∨ s = "false" ∨ s = "f" ∨ s = "no" ∨ s = "n" then some false
    else none

/-- The flat query-parameter map handed to CollisionFilter, after the
from/to -> from_date/to_date alias normalization of api.views. -/
structure FilterParams where
  from_date : Option String := none
  to_date : Option String := none
  quadrant : Option String := none
  weather_day_city : Option String := none
  freeze_day_city : Option String := none
  heavy_rain : Option String := none
  heavy_snow : Option String := none
  gust_min : Option String := none
  station : Option String := none

/-- Model of the date cleaning done by the DateFilter form field on an ISO
yyyy-mm-dd value (datetime.strptime with %Y-%m-%d). -/
def cleanDate (s : String) : Option PyDate :=
  match pySplit (pyStrip s) '-' with
  | [ys, ms, ds] => do
    let y ← parseNatStr ys
    let m ← parseNatStr ms
    let d ← parseNatStr ds
    mkDate y m d
  | _ => none

/-- CollisionFilter.filter_from: date__gte=value. -/
def filter_from (qs : List CollisionRec) (value : PyDate) : List CollisionRec :=
  qs.filter (fun c => dateLe value c.date)

/-- CollisionFilter.filter_to: date__lte=value. -/
def filter_to (qs : List CollisionRec) (value : PyDate) : List CollisionRec :=
  qs.filter (fun c => dateLe c.date value)

/-- The quadrant CharFilter: exact match on the stored quadrant code. -/
def filter_quadrant (qs : List CollisionRec) (value : String) : List CollisionRec :=
  qs.filter (fun c => quadrantCode c.quadrant = value)

/-- CollisionFilter.filter_weather_day_city: map the dry/wet/snowy token
case-insensitively, unknown tokens are a no-op, else restrict to collisions
whose date is a CityDailyWeather date with that classification. -/
def filter_weather_day_city (city : List CityRec) (qs : List CollisionRec)
    (value : String) : List CollisionRec :=
  if value = "" then qs
  else
    let code : Option WeatherDay :=
      let s := pyLower (pyStrip value)
      if s = "dry" then some .DRY
      else if s = "wet" then some .WET
      else if s = "snowy" then some .SNY
      else none
    match code with
    | none => qs
    | some c0 =>
      let dates := (city.filter (fun w => w.weather_day_city = some c0)).map (·.date)
      qs.filter (fun c => decide (c.date ∈ dates))

/-- CollisionFilter.filter_freeze_day_city. -/
def filter_freeze_day_city (city : List CityRec) (qs : List CollisionRec)
    (value : String) : List CollisionRec :=
  match str_to_bool (some value) with
  | none => qs
  | some v =>
    let dates := (city.filter (fun w => w.freeze_day_city = some v)).map (·.date)
    qs.filter (fun c => decide (c.date ∈ dates))

/-- CollisionFilter.filter_heavy_rain: precip_any flag. -/
def filter_heavy_rain (city : List CityRec) (qs : List CollisionRec)
    (value : String) : List CollisionRec :=
  match str_to_bool (some value) with
  | none => qs
  | some v =>
    let dates := (city.filter (fun w => w.precip_any = some v)).map (·.date)
    qs.filter (fun c => decide (c.date ∈ dates))

/-- CollisionFilter.filter_heavy_snow: snow_any flag. -/
def filter_heavy_snow (city : List CityRec) (qs : List CollisionRec)
    (value : String) : List CollisionRec :=
  match str_to_bool (some value) with
  | none => qs
  | some v =>
    let dates := (city.filter (fun w => w.snow_any = some v)).map (·.date)
    qs.filter (fun c => decide (c.date ∈ dates))

/-- CollisionFilter.filter_gust_min: correlated existence filter, one
observation matching the nearest station and the collision date must have
gust_kmh at or above the threshold; unparsable thresholds are a no-op. -/
def filter_gust_min (observations : List GustObs) (qs : List CollisionRec)
    (value : String) : List CollisionRec :=
  match parsePyFloat value with
  | some (.num t) =>
    qs.filter (fun c =>
      observations.any (fun o =>
        some o.station_id = c.nearest_station_id && o.date = c.date &&
          match o.gust_kmh with
          | some g => decide (t ≤ (g : ℚ))
          | none => false))
  | _ => qs

/-- Python str.isdigit on an ASCII string: nonempty and all digits. -/
def isDigitsStr (s : String) : Bool :=
  s ≠ "" && s.data.all Char.isDigit

/-- CollisionFilter.filter_station: empty is a no-op; an all-digit token
filters nearest_station_id by primary key; any other token filters on
nearest_station__climate_id with the default exact (case-sensitive) lookup.
The comment in the source says "try match on climate_id or name" but no name
match is implemented. -/
def filter_station (stations : List Station) (qs : List CollisionRec)
    (value : String) : List CollisionRec :=
  let s := pyStrip value
  if s = "" then qs
  else if isDigitsStr s then
    qs.filter (fun c => c.nearest_station_id = some (natOfDigits s.data))
  else
    qs.filter (fun c =>
      match c.nearest_station_id with
      | some sid => stations.any (fun st => st.id = sid && st.climate_id = s)
      | none => false)

/-- The station filter as the specification words it (and as the tests of the
repository assert it): all-digit tokens match the numeric id, any other token
matches the nearest station by case-insensitive exact climate-id or by
substring of the station name.  Stated for comparison with filter_station. -/
def filter_station_spec (stations : List Station) (qs : List CollisionRec)
    (value : String) : List CollisionRec :=
  let s := pyStrip value
  if s = "" then qs
  else if isDigitsStr s then
    qs.filter (fun c => c.nearest_station_id = some (natOfDigits s.data))
  else
    qs.filter (fun c =>
      match c.nearest_station_id with
      | some sid => stations.any (fun st =>
          st.id = sid &&
            (pyLower st.climate_id = pyLower s ||
              strContains (pyLower st.name).data (pyLower s).data))
      | none => false)

/-- One date-valued filter parameter, as FilterSet.qs applies it: the cleaned
date when the parameter is present and parses, else a no-op. -/
def stepDate (f : List CollisionRec → PyDate → List CollisionRec) (v : Option String)
    (qs : List CollisionRec) : List CollisionRec :=
  match v.bind cleanDate with
  | some d => f qs d
  | none => qs

/-- One string-valued filter parameter, as FilterSet.qs applies it: absent
and empty values are skipped, all others go to the filter method. -/
def stepStr (f : List CollisionRec → String → List CollisionRec) (v : Option String)
    (qs : List CollisionRec) : List CollisionRec :=
  match v with
  | some s => if s = "" then qs else f qs s
  | none => qs

/-- CollisionFilter applied as in FilterSet.qs: each supplied parameter is
cleaned and applied in declaration order; parameters that are absent (or fail
form cleaning, for the date and number fields) are skipped. -/
def collisionFilter (db : Db) (p : FilterParams) : List CollisionRec :=
  stepStr (filter_station db.stations) p.station
    (stepStr (filter_gust_min db.observations) p.gust_min
      (stepStr (filter_heavy_snow db.city) p.heavy_snow
        (stepStr (filter_heavy_rain db.city) p.heavy_rain
          (stepStr (filter_freeze_day_city db.city) p.freeze_day_city
            (stepStr (filter_weather_day_city db.city) p.weather_day_city
              (stepStr filter_quadrant p.quadrant
                (stepDate filter_to p.to_date
                  (stepDate filter_from p.from_date db.collisions))))))))

/-! ### Endpoint layer (api/views.py) -/

/-- api.views._parse_date: split on "-", unpack exactly three int parts,
construct a validated date. -/
def parse_date (s : String) : Option PyDate :=
  match pySplit s '-' with
  | [a, b, c] => do
    let y ← parsePyInt a
    let m ← parsePyInt b
    let d ← parsePyInt c
    mkDate y m d
  | _ => none

/-- api.views._validate_date_range_or_400: a supplied nonempty from/to value
must parse, and when both are present the range must not be inverted.  The
result is the error message of the ValidationError, none when the request is
acceptable. -/
def validate_date_range (fromS toS : Option String) : Option String :=
  let fs := fromS.getD ""
  let ts := toS.getD ""
  if fs ≠ "" ∧ (parse_date fs).isNone then
    some "Invalid date format, expected YYYY-MM-DD"
  else if ts ≠ "" ∧ (parse_date ts).isNone then
    some "Invalid date format, expected YYYY-MM-DD"
  else if fs ≠ "" ∧ ts ≠ "" then
    match parse_date fs, parse_date ts with
    | some a, some b => if dateLe a b then none else some "from must be <= to"
    | _, _ => none
  else none

/-- CollisionViewSet.list: validates the date range, then serves the filtered
collision set.  Ordering and pagination, which live in the HTTP layer, are
not modelled; the claims about this endpoint concern rejection and
membership only. -/
def listGet (db : Db) (p : FilterParams) : Except String (List CollisionRec) :=
  match validate_date_range p.from_date p.to_date with
  | some e => .error e
  | none => .ok (collisionFilter db p)

/-- One entry of the near-endpoint result list. -/
structure NearRow where
  collision_id : String
  occurred_at : PyDateTime
  quadrant : Quadrant
  longitude : ℚ
  latitude : ℚ
  count : ℤ
  location_text : String
  distance_km : ℚ
deriving DecidableEq, Repr

/-- The near-endpoint response: echoed parameters, result list, count. -/
structure NearResponse where
  lat : ℚ
  lon : ℚ
  radius_km : PFloat
  limit : ℤ
  results : List NearRow
  count : ℕ
deriving DecidableEq, Repr

/-- api.views._bbox.  The cosine of the center latitude (math.cos applied to
radians) is abstracted as the parameter cosF. -/
def bbox (cosF : ℚ → ℚ) (lat lon : ℚ) (radius : PFloat) :
    PFloat × PFloat × PFloat × PFloat :=
  let lat_delta := pfDivQ radius (qOf 2783 25)
  let lon_delta := pfDivQ radius (qmaxPy (qOf 1 1000000) (qmul (qOf 2783 25) (qabs (cosF lat))))
  (pfSubQ lat lat_delta, pfAddQ lat lat_delta, pfSubQ lon lon_delta, pfAddQ lon lon_delta)

/-- Radius parameter parsing in CollisionsNear.get: default 1.0, ValueError
falls back to 1.0. -/
def radiusOf (radiusS : Option String) : PFloat :=
  match radiusS with
  | none => .num 1
  | some s => (parsePyFloat s).getD (.num 1)

/-- Radius clamping in CollisionsNear.get: non-positive becomes the default
1.0, then the 10 km cap is applied. -/
def clampRadius (r : PFloat) : PFloat :=
  pyMin (if pyLe r (.num 0) then .num 1 else r) (.num 10)

/-- Limit parameter parsing in CollisionsNear.get: default 100, ValueError
falls back to 100. -/
def limitOf (limitS : Option String) : ℤ :=
  match limitS with
  | none => 100
  | some s => (parsePyInt s).getD 100

/-- Limit clamping in CollisionsNear.get: max(1, min(limit, 500)). -/
def clampLimit (n : ℤ) : ℤ := max 1 (min n 500)

/-- Sort key relation of the near endpoint: the annotated (already rounded)
distance_km, which is the key of out.sort. -/
def nearRel (a b : NearRow) : Prop := a.distance_km ≤ b.distance_km

instance : DecidableRel nearRel := fun a b =>
  inferInstanceAs (Decidable (a.distance_km ≤ b.distance_km))

instance : IsTotal NearRow nearRel := ⟨fun a b => le_total a.distance_km b.distance_km⟩

instance : IsTrans NearRow nearRel := ⟨fun _ _ _ h h2 => le_trans h h2⟩

/-- The pre-sort result list of the near endpoint: for every bounding-box
candidate, compute the distance (distF abstracts _haversine_km), keep it when
at most the radius, annotate with the distance rounded to 3 decimals; a count
of 0 is rendered as 1 (int(r["count"] or 1)). -/
def nearPending (distF : ℚ → ℚ → ℚ → ℚ → ℚ) (lat lon : ℚ) (radius : PFloat)
    (cands : List CollisionRec) : List NearRow :=
  cands.filterMap (fun c =>
    let d := distF lon lat c.longitude c.latitude
    if pyLe (.num d) radius then
      some ⟨c.collision_id, c.occurred_at, c.quadrant, c.longitude, c.latitude,
        (if c.count = 0 then 1 else c.count), c.location_text, round3 d⟩
    else none)

/-- The candidate set of the near endpoint: the filter-engine output further
restricted by the coarse bounding box. -/
def nearCandidates (cosF : ℚ → ℚ) (db : Db) (fp : FilterParams) (lat lon : ℚ)
    (radius : PFloat) : List CollisionRec :=
  let b := bbox cosF lat lon radius
  (collisionFilter db fp).filter (fun c =>
    pyLe b.1 (.num c.latitude) && pyLe (.num c.latitude) b.2.1 &&
      pyLe b.2.2.1 (.num c.longitude) && pyLe (.num c.longitude) b.2.2.2)

/-- The main body of CollisionsNear.get once the inputs are validated and
clamped: bounding box pre-filter, exact distance filter and annotation,
stable ascending sort by the annotated distance, truncation to the limit,
echoed parameters and count of the truncated list. -/
def nearCore (cosF : ℚ → ℚ) (distF : ℚ → ℚ → ℚ → ℚ → ℚ) (db : Db)
    (fp : FilterParams) (lat lon : ℚ) (radius : PFloat) (lim : ℤ) : NearResponse :=
  let pending := nearPending distF lat lon radius (nearCandidates cosF db fp lat lon radius)
  let out := (List.insertionSort nearRel pending).take lim.toNat
  ⟨lat, lon, radius, lim, out, out.length⟩

/-- CollisionsNear.get: parse and bounds-check the center, parse and clamp
radius and limit, then run the core pipeline.  Note that, unlike the list and
stats endpoints, no date-range validation is performed here. -/
def nearGet (cosF : ℚ → ℚ) (distF : ℚ → ℚ → ℚ → ℚ → ℚ) (db : Db)
    (latS lonS radiusS limitS : Option String) (fp : FilterParams) :
    Except String NearResponse :=
  match latS.bind parsePyFloat, lonS.bind parsePyFloat with
  | some latp, some lonp =>
    if pyLe (.num (-90)) latp && pyLe latp (.num 90) &&
        pyLe (.num (-180)) lonp && pyLe lonp (.num 180) then
      match latp, lonp with
      | .num lat, .num lon =>
        .ok (nearCore cosF distF db fp lat lon
          (clampRadius (radiusOf radiusS)) (clampLimit (limitOf limitS)))
      | _, _ => .error "lat must be [-90,90] and lon [-180,180]"
    else .error "lat must be [-90,90] and lon [-180,180]"
  | _, _ => .error "lat and lon are required float query parameters"

/-! ### Weather loader (core/management/commands/load_weather.py) -/

/-- load_weather._coerce_float: strip, the empty cell and the sentinel M are
absent, the trace sentinel T is 0.0, anything else parses as a float or is
absent.  A non-finite parse (the tokens nan and inf, which no weather file
contains) is modelled as absent, keeping the stored fields rational. -/
def coerce_float (val : Option String) : Option ℚ :=
  match val with
  | none => none
  | some v =>
    let s := pyStrip v
    if s = "" then none
    else if pyUpper s = "M" then none
    else if pyUpper s = "T" then some 0
    else
      match parsePyFloat s with
      | some (.num q) => some q
      | _ => none

/-- load_weather._coerce_int: the float coercion truncated toward zero. -/
def coerce_int (val : Option String) : Option ℤ :=
  (coerce_float val).map truncQ

/-- A weather CSV row after the tolerant header matching of load_weather._get:
one optional cell per canonical field. -/
structure WeatherRow where
  station_name : Option String := none
  climate_id : Option String := none
  longitude : Option String := none
  latitude : Option String := none
  date_str : Option String := none
  max_temp : Option String := none
  min_temp : Option String := none
  mean_temp : Option String := none
  total_rain : Option String := none
  total_snow : Option String := none
  total_precip : Option String := none
  snow_grnd : Option String := none
  gust_dir : Option String := none
  gust_spd : Option String := none
deriving DecidableEq, Repr

/-- Python "a or b" for an optional string and a string default. -/
def pyOrStr (a : Option String) (b : String) : String :=
  match a with
  | some s => if s = "" then b else s
  | none => b

/-- The station name of a row: _get(row, ["Station Name"]) or "Unknown". -/
def wName (row : WeatherRow) : String := pyOrStr row.station_name "Unknown"

/-- The climate id of a row: _get(row, ["Climate ID"]) or "". -/
def wClimate (row : WeatherRow) : String := row.climate_id.getD ""

/-- The observation date of a row: the first three dash-separated components
parsed as ints and validated by datetime.date; any failure skips the
observation part of the row. -/
def wObsDate (ds : String) : Option PyDate :=
  match (pySplit ds '-').take 3 with
  | [a, b, c] => do
    let y ← parsePyInt a
    let m ← parsePyInt b
    let d ← parsePyInt c
    mkDate y m d
  | _ => none

/-- The per-row weather_day derivation of load_weather._load_file: SNOWY on
positive snow, else WET on precipitation at least 0.2, else DRY when both
readings are present and exactly zero, else unset. -/
def weatherDayOf (snow precip : Option ℚ) : Option WeatherDay :=
  if (match snow with | some sn => decide (0 < sn) | none => false) then some .SNY
  else if (match precip with | some p => decide (qOf 2 10 ≤ p) | none => false) then
    some .WET
  else if precip = some 0 ∧ snow = some 0 then some .DRY
  else none

/-- The per-row freeze_day derivation: minimum temperature below zero, unset
when the minimum temperature is unknown. -/
def freezeDayOf (t_min : Option ℚ) : Option Bool :=
  t_min.map (fun t => decide (t < 0))

/-- core.models.WeatherObservation as written by the loader (the fields of
the defaults dict of update_or_create). -/
structure ObsRec where
  t_max_c : Option ℚ
  t_min_c : Option ℚ
  t_mean_c : Option ℚ
  total_rain_mm : Option ℚ
  total_snow_cm : Option ℚ
  total_precip_mm : Option ℚ
  snow_on_ground_cm : Option ℚ
  gust_dir_10deg : Option ℤ
  gust_kmh : Option ℤ
  weather_day : Option WeatherDay
  freeze_day : Option Bool
deriving DecidableEq, Repr

/-- The observation defaults computed from one row. -/
def obsOfRow (row : WeatherRow) : ObsRec :=
  let t_min := coerce_float row.min_temp
  let snow := coerce_float row.total_snow
  let precip := coerce_float row.total_precip
  { t_max_c := coerce_float row.max_temp
    t_min_c := t_min
    t_mean_c := coerce_float row.mean_temp
    total_rain_mm := coerce_float row.total_rain
    total_snow_cm := snow
    total_precip_mm := precip
    snow_on_ground_cm := coerce_float row.snow_grnd
    gust_dir_10deg := coerce_int row.gust_dir
    gust_kmh := coerce_int row.gust_spd
    weather_day := weatherDayOf snow precip
    freeze_day := freezeDayOf t_min }

/-- core.models.WeatherStation as written by the loader (the climate_id is
the key of the station table and lives outside the record). -/
structure WStation where
  name : String
  longitude : ℚ
  latitude : ℚ
deriving DecidableEq, Repr

/-- The two tables the weather loader writes, modelled as maps from their
unique natural keys: climate_id for stations, (climate_id, date) for
observations (unique_together station/date, with climate_id unique per
station). -/
structure WStore where
  stations : String → Option WStation
  obs : String × PyDate → Option ObsRec

/-- The weather loader state: store plus the created/updated counters the
command reports. -/
structure WLoadState where
  store : WStore
  created_st : ℕ
  updated_st : ℕ
  created_obs : ℕ
  updated_obs : ℕ

/-- The observation half of a loader row: skipped when the date cell is falsy
or does not parse, otherwise an upsert keyed by station and date with the
row-determined defaults. -/
def loadWeatherObsPart (st : WLoadState) (climate_id : String) (row : WeatherRow) :
    WLoadState :=
  match row.date_str with
  | none => st
  | some ds =>
    if ds = "" then st
    else
      match wObsDate ds with
      | none => st
      | some d =>
        let key : String × PyDate := (climate_id, d)
        let v := obsOfRow row
        let store2 : WStore :=
          { st.store with obs := fun k => if k = key then some v else st.store.obs k }
        match st.store.obs key with
        | some _ => { st with store := store2, updated_obs := st.updated_obs + 1 }
        | none => { st with store := store2, created_obs := st.created_obs + 1 }

/-- One row of load_weather._load_file: skip on a falsy climate id; create
the station only when both coordinates are present, else skip the row; update
an existing station in place when the row differs; then the observation
upsert. -/
def loadWeatherRow (st : WLoadState) (row : WeatherRow) : WLoadState :=
  let name := wName row
  let climate_id := wClimate row
  let lon := coerce_float row.longitude
  let lat := coerce_float row.latitude
  if climate_id = "" then st
  else
    match st.store.stations climate_id with
    | none =>
      match lon, lat with
      | some lo, some la =>
        let store2 : WStore :=
          { st.store with stations := fun k =>
              if k = climate_id then some ⟨name, lo, la⟩ else st.store.stations k }
        loadWeatherObsPart
          { st with store := store2, created_st := st.created_st + 1 } climate_id row
      | _, _ => st
    | some s0 =>
      let c1 : Bool := name ≠ "" && s0.name ≠ name
      let c2 : Bool := match lon with | some lo => decide (s0.longitude ≠ lo) | none => false
      let c3 : Bool := match lat with | some la => decide (s0.latitude ≠ la) | none => false
      let s1 : WStation :=
        { name := if c1 then name else s0.name
          longitude := lon.getD s0.longitude
          latitude := lat.getD s0.latitude }
      let store2 : WStore :=
        { st.store with stations := fun k =>
            if k = climate_id then some s1 else st.store.stations k }
      let st1 :=
        if c1 || c2 || c3 then
          { st with store := store2, updated_st := st.updated_st + 1 }
        else { st with store := store2 }
      loadWeatherObsPart st1 climate_id row

/-- load_weather over a list of parsed rows (the per-file loop of _load_file,
with the file set flattened; all files share one transaction). -/
def loadWeather (rows : List WeatherRow) (st : WLoadState) : WLoadState :=
  rows.foldl loadWeatherRow st

/-- The store part of a weather load started with zeroed counters. -/
def loadWeatherStore (rows : List WeatherRow) (s : WStore) : WStore :=
  (loadWeather rows ⟨s, 0, 0, 0, 0⟩).store

/-- The empty weather database. -/
def emptyWStore : WStore := ⟨fun _ => none, fun _ => none⟩

/-! ### City-weather aggregator (core/management/commands/build_city_weather.py) -/

/-- The per-date body of build_city_weather.Command.handle: collects the
non-null station values for the date and derives the city-level record.
Command.handle applies this to every distinct date of the observation table
and upserts the result by date. -/
def cityAggregate (d : PyDate) (obs : List ObsRec) : CityRec :=
  let t_max_vals := obs.filterMap (·.t_max_c)
  let t_min_vals := obs.filterMap (·.t_min_c)
  let precip_vals := obs.filterMap (·.total_precip_mm)
  let snow_vals := obs.filterMap (·.total_snow_cm)
  let weather_days := obs.filterMap (·.weather_day)
  let freeze_days := obs.filterMap (·.freeze_day)
  let day_city : WeatherDay :=
    if snow_vals.any (fun x => decide (0 < x)) then .SNY
    else if precip_vals.any (fun x => decide (qOf 2 10 ≤ x)) then .WET
    else .DRY
  let freeze_city : Option Bool :=
    if freeze_days = [] then none
    else
      let true_count := (freeze_days.filter (· = true)).length
      some (decide ((true_count : ℚ) ≥ (freeze_days.length : ℚ) / 2))
  let agree : Option ℚ :=
    if weather_days = [] then none
    else some (((weather_days.filter (· = day_city)).length : ℚ) / (weather_days.length : ℚ))
  { date := d
    weather_day_city := some day_city
    freeze_day_city := freeze_city
    t_max_avg := if t_max_vals = [] then none else some (t_max_vals.sum / (t_max_vals.length : ℚ))
    t_min_avg := if t_min_vals = [] then none else some (t_min_vals.sum / (t_min_vals.length : ℚ))
    precip_any := if precip_vals = [] then none else some (precip_vals.any (fun x => decide (0 < x)))
    snow_any := if snow_vals = [] then none else some (snow_vals.any (fun x => decide (0 < x)))
    agreement_ratio := agree }

/-! ### Collision loader (core/management/commands/load_collisions.py) -/

/-- A collision CSV row as read by csv.DictReader: the cells the loader
accesses, each optional (the id column appears under three accepted
spellings). -/
structure CollisionRow where
  id_lower : Option String := none
  id_title : Option String := none
  id_upper : Option String := none
  longitude : Option String := none
  latitude : Option String := none
  start_dt : Option String := none
  modified_dt : Option String := none
  description : Option String := none
  incident_info : Option String := none
  count : Option String := none
  quadrant : Option String := none
deriving DecidableEq, Repr

/-- The external id of a row: row.get("id") or row.get("Id") or
row.get("ID"), none when every spelling is missing or empty (falsy). -/
def collIdOf (row : CollisionRow) : Option String :=
  let pick : Option String → Option String := fun o =>
    match o with
    | some s => if s = "" then none else some s
    | none => none
  match pick row.id_lower with
  | some s => some s
  | none =>
    match pick row.id_title with
    | some s => some s
    | none => pick row.id_upper

/-- load_collisions.norm_quadrant: falsy input and anything outside the four
compass codes normalizes to UNKNOWN. -/
def norm_quadrant (q : Option String) : Quadrant :=
  match q with
  | none => .UNK
  | some s =>
    if s = "" then .UNK
    else
      let q2 := pyUpper (pyStrip s)
      if q2 = "NW" then .NW
      else if q2 = "NE" then .NE
      else if q2 = "SW" then .SW
      else if q2 = "SE" then .SE
      else .UNK

/-- load_collisions.in_bounds, evaluated on the parsed floats (false for the
non-finite values, as in Python). -/
def in_boundsP (lon lat : PFloat) : Bool :=
  pyLe (.num (qOf (-1145) 10)) lon && pyLe lon (.num (qOf (-1136) 10)) &&
    pyLe (.num (qOf 505 10)) lat && pyLe lat (.num (qOf 513 10))

/-- The count cell: int(count) if count and count.strip() else 1, with the
surrounding try defaulting to 1 on a parse failure. -/
def countValOf (c : Option String) : ℤ :=
  match c with
  | none => 1
  | some s => if pyStrip s = "" then 1 else (parsePyInt s).getD 1

/-- load_collisions.nearest_station_id: exhaustive scan keeping the first
strictly-smallest distance; none when no stations exist.  distF abstracts
haversine_km over floats; its argument order is that of the call site
(lon, lat, station longitude, station latitude). -/
def nearest_station_id (stations : List Station) (distF : ℚ → ℚ → ℚ → ℚ → ℚ)
    (lon lat : ℚ) : Option ℕ :=
  (stations.foldl
    (fun best st =>
      let d := distF lon lat st.longitude st.latitude
      match best with
      | none => some (st.id, d)
      | some (bid, bd) => if d < bd then some (st.id, d) else some (bid, bd))
    none).map (·.1)

/-- The five row-skip diagnostics of load_collisions.Command.handle. -/
inductive SkipReason where
  | no_id | invalid_coords | out_of_bounds | bad_start_dt | exception
deriving DecidableEq, Repr

/-- The effect of one CSV row: a diagnosed skip, or an upsert keyed by the
external collision id. -/
inductive RowOutcome where
  | skip : SkipReason → RowOutcome
  | upsert : String → CollisionRec → RowOutcome
deriving DecidableEq, Repr

/-- The per-row pipeline of load_collisions.Command.handle.  A float() parse
failure on the coordinate cells raises ValueError, landing in the exception
bucket of the enclosing try.  (The final fallthrough arm after the bounds
check is unreachable: in_boundsP only accepts finite values.) -/
def processCollisionRow (stations : List Station) (distF : ℚ → ℚ → ℚ → ℚ → ℚ)
    (row : CollisionRow) : RowOutcome :=
  match collIdOf row with
  | none => .skip .no_id
  | some coll_id =>
    match parsePyFloat (pyOrStr row.longitude "nan"),
        parsePyFloat (pyOrStr row.latitude "nan") with
    | some lonp, some latp =>
      if !(pyEqB lonp lonp && pyEqB latp latp) then .skip .invalid_coords
      else if !(in_boundsP lonp latp) then .skip .out_of_bounds
      else
        match lonp, latp with
        | .num lon, .num lat =>
          (match parse_dt_local ((row.start_dt).getD "") with
           | none => .skip .bad_start_dt
           | some occ =>
             let local_date := occ.dateOf
             .upsert coll_id
               { collision_id := coll_id
                 occurred_at := occ
                 modified_at := parse_dt_local ((row.modified_dt).getD "")
                 date := local_date
                 hour := occ.hour
                 weekday := dateWeekday local_date
                 month := occ.month
                 quadrant := norm_quadrant row.quadrant
                 longitude := lon
                 latitude := lat
                 count := countValOf row.count
                 description := pyStrip ((row.description).getD "")
                 location_text := pyStrip ((row.incident_info).getD "")
                 intersection_key := (round4 lat, round4 lon)
                 nearest_station_id := nearest_station_id stations distF lon lat })
        | _, _ => .skip .exception
    | _, _ => .skip .exception

/-- The collision table, keyed by the unique external collision id. -/
def CollStore := String → Option CollisionRec

/-- The created/updated/skipped counters and skip-reason breakdown that
load_collisions reports. -/
structure CollCounters where
  created : ℕ
  updated : ℕ
  skipped : ℕ
  no_id : ℕ
  invalid_coords : ℕ
  out_of_bounds : ℕ
  bad_start_dt : ℕ
  exception : ℕ
deriving DecidableEq, Repr

/-- Tally one skipped row. -/
def bumpSkip (c : CollCounters) (r : SkipReason) : CollCounters :=
  let c := { c with skipped := c.skipped + 1 }
  match r with
  | .no_id => { c with no_id := c.no_id + 1 }
  | .invalid_coords => { c with invalid_coords := c.invalid_coords + 1 }
  | .out_of_bounds => { c with out_of_bounds := c.out_of_bounds + 1 }
  | .bad_start_dt => { c with bad_start_dt := c.bad_start_dt + 1 }
  | .exception => { c with exception := c.exception + 1 }

/-- One loop iteration of load_collisions.Command.handle: process the row,
then either tally the skip or perform the update_or_create keyed on the
collision id. -/
def applyCollisionRow (stations : List Station) (distF : ℚ → ℚ → ℚ → ℚ → ℚ)
    (st : CollStore × CollCounters) (row : CollisionRow) : CollStore × CollCounters :=
  match processCollisionRow stations distF row with
  | .skip r => (st.1, bumpSkip st.2 r)
  | .upsert k v =>
    let store2 : CollStore := fun k2 => if k2 = k then some v else st.1 k2
    match st.1 k with
    | some _ => (store2, { st.2 with updated := st.2.updated + 1 })
    | none => (store2, { st.2 with created := st.2.created + 1 })

/-- load_collisions over a list of parsed rows (all files of the invocation
flattened, inside one transaction). -/
def loadCollisions (stations : List Station) (distF : ℚ → ℚ → ℚ → ℚ → ℚ)
    (rows : List CollisionRow) (st : CollStore × CollCounters) :
    CollStore × CollCounters :=
  rows.foldl (applyCollisionRow stations distF) st

/-- The empty collision table. -/
def emptyCollStore : CollStore := fun _ => none

/-- Zeroed counters. -/
def zeroCounters : CollCounters := ⟨0, 0, 0, 0, 0, 0, 0, 0⟩

/-! ### Theorems -/

/-- The 0.2 threshold constant of the weather classification, in its
kernel-reducible form, equals the plain rational 2/10. -/
theorem qOf_two_ten : qOf 2 10 = (2 / 10 : ℚ) := by
  rw [qOf, Rat.mkRat_eq_divInt, Rat.divInt_eq_div]
  norm_num

/-- C3: for every weather observation row, the derived per-station
weather_day is SNOWY when total snow is positive; otherwise WET when total
precipitation is at least 0.2; otherwise DRY when both precipitation and snow
are present and exactly 0.0; otherwise unset. -/
theorem c3_weather_day_rule (snow precip : Option ℚ) :
    (∀ sn ∈ snow, 0 < sn → weatherDayOf snow precip = some WeatherDay.SNY) ∧
    ((∀ sn ∈ snow, ¬ 0 < sn) → ∀ p ∈ precip, (2/10 : ℚ) ≤ p →
      weatherDayOf snow precip = some WeatherDay.WET) ∧
    ((∀ sn ∈ snow, ¬ 0 < sn) → (∀ p ∈ precip, ¬ (2/10 : ℚ) ≤ p) →
      precip = some 0 → snow = some 0 → weatherDayOf snow precip = some WeatherDay.DRY) ∧
    ((∀ sn ∈ snow, ¬ 0 < sn) → (∀ p ∈ precip, ¬ (2/10 : ℚ) ≤ p) →
      ¬ (precip = some 0 ∧ snow = some 0) → weatherDayOf snow precip = none) := by
  refine ⟨?_, ?_, ?_, ?_⟩
  · intro sn hsn h0
    obtain rfl : snow = some sn := by cases snow <;> simp_all [Option.mem_def]
    simp [weatherDayOf, h0]
  · intro hns p hp h2
    obtain rfl : precip = some p := by cases precip <;> simp_all [Option.mem_def]
    obtain _ | sn := snow
    · simp [weatherDayOf, qOf_two_ten, h2]
    · have h0 : ¬ (0 < sn) := hns sn rfl
      simp [weatherDayOf, qOf_two_ten, h0, h2]
  · intro hns hnp hp0 hs0
    subst hp0; subst hs0
    have h0 : ¬ ((0 : ℚ) < 0) := by norm_num
    have h2 : ¬ ((2/10 : ℚ) ≤ 0) := by norm_num
    simp [weatherDayOf, qOf_two_ten, h0, h2]
  · intro hns hnp hne
    obtain _ | sn := snow <;> obtain _ | pv := precip
    · simp [weatherDayOf]
    · have h2 : ¬ ((2/10 : ℚ) ≤ pv) := hnp pv rfl
      simp [weatherDayOf, qOf_two_ten, h2]
    · have h0 : ¬ (0 < sn) := hns sn rfl
      simp [weatherDayOf, qOf_two_ten, h0]
    · have h0 : ¬ (0 < sn) := hns sn rfl
      have h2 : ¬ ((2/10 : ℚ) ≤ pv) := hnp pv rfl
      have h3 : ¬ (pv = 0 ∧ sn = 0) := by
        rintro ⟨a, b⟩
        exact hne (by simp [a, b])
      simp [weatherDayOf, qOf_two_ten, h0, h2, h3]

/-- C3 witness: a row with snow 1.0 and no precipitation reading is SNOWY. -/
theorem c3_witness :
    (1 : ℚ) ∈ (some (1 : ℚ)) ∧ weatherDayOf (some 1) none = some WeatherDay.SNY :=
  ⟨rfl, (c3_weather_day_rule (some 1) none).1 1 rfl (by norm_num)⟩

/-- C4: for every date with at least one observation, the city-level
classification is SNOWY when any station reports positive snow, regardless of
precipitation; else WET when any station reports precipitation of at least
0.2; else DRY. -/
theorem c4_city_classification (d : PyDate) (obs : List ObsRec) (h : obs ≠ []) :
    ((∃ x ∈ obs.filterMap (fun o => o.total_snow_cm), 0 < x) →
      (cityAggregate d obs).weather_day_city = some WeatherDay.SNY) ∧
    ((¬ ∃ x ∈ obs.filterMap (fun o => o.total_snow_cm), 0 < x) →
      (∃ x ∈ obs.filterMap (fun o => o.total_precip_mm), (2/10 : ℚ) ≤ x) →
      (cityAggregate d obs).weather_day_city = some WeatherDay.WET) ∧
    ((¬ ∃ x ∈ obs.filterMap (fun o => o.total_snow_cm), 0 < x) →
      (¬ ∃ x ∈ obs.filterMap (fun o => o.total_precip_mm), (2/10 : ℚ) ≤ x) →
      (cityAggregate d obs).weather_day_city = some WeatherDay.DRY) := by
  refine ⟨?_, ?_, ?_⟩
  · intro hs
    have : (obs.filterMap (fun o => o.total_snow_cm)).any (fun x => decide (0 < x)) = true := by
      simp only [List.any_eq_true, decide_eq_true_iff]
      exact hs
    simp [cityAggregate, this]
  · intro hs hp
    have h1 : (obs.filterMap (fun o => o.total_snow_cm)).any (fun x => decide (0 < x)) = false := by
      simp only [List.any_eq_false, decide_eq_true_iff]
      intro x hx
      exact fun h0 => hs ⟨x, hx, h0⟩
    have h2 : (obs.filterMap (fun o => o.total_precip_mm)).any
        (fun x => decide (qOf 2 10 ≤ x)) = true := by
      simp only [List.any_eq_true, decide_eq_true_iff, qOf_two_ten]
      exact hp
    simp [cityAggregate, h1, h2]
  · intro hs hp
    have h1 : (obs.filterMap (fun o => o.total_snow_cm)).any (fun x => decide (0 < x)) = false := by
      simp only [List.any_eq_false, decide_eq_true_iff]
      exact fun x hx h0 => hs ⟨x, hx, h0⟩
    have h2 : (obs.filterMap (fun o => o.total_precip_mm)).any
        (fun x => decide (qOf 2 10 ≤ x)) = false := by
      simp only [List.any_eq_false, decide_eq_true_iff, qOf_two_ten]
      exact fun x hx h0 => hp ⟨x, hx, h0⟩
    simp [cityAggregate, h1, h2]

/-- C4 witness: one station with snow 2.0 and one with precipitation 1.2 and
snow 0 classify the date SNOWY. -/
theorem c4_witness :
    ([({ t_max_c := none, t_min_c := none, t_mean_c := none, total_rain_mm := none,
         total_snow_cm := some 2, total_precip_mm := none, snow_on_ground_cm := none,
         gust_dir_10deg := none, gust_kmh := none, weather_day := some WeatherDay.SNY,
         freeze_day := some true } : ObsRec),
      ({ t_max_c := none, t_min_c := none, t_mean_c := none, total_rain_mm := none,
         total_snow_cm := some 0, total_precip_mm := some (qOf 12 10), snow_on_ground_cm := none,
         gust_dir_10deg := none, gust_kmh := none, weather_day := some WeatherDay.WET,
         freeze_day := some false } : ObsRec)] ≠ []) ∧
    (cityAggregate ⟨2024, 1, 15⟩
      [{ t_max_c := none, t_min_c := none, t_mean_c := none, total_rain_mm := none,
         total_snow_cm := some 2, total_precip_mm := none, snow_on_ground_cm := none,
         gust_dir_10deg := none, gust_kmh := none, weather_day := some WeatherDay.SNY,
         freeze_day := some true },
       { t_max_c := none, t_min_c := none, t_mean_c := none, total_rain_mm := none,
         total_snow_cm := some 0, total_precip_mm := some (qOf 12 10), snow_on_ground_cm := none,
         gust_dir_10deg := none, gust_kmh := none, weather_day := some WeatherDay.WET,
         freeze_day := some false }]).weather_day_city = some WeatherDay.SNY :=
  ⟨by decide, (c4_city_classification ⟨2024, 1, 15⟩ _ (by decide)).1 (by decide)⟩

/-- C5: on a date where at least one station reports a freeze flag,
freeze_day_city is true exactly when the stations reporting true are at least
half of those reporting (a tie counts as true); with no reporting station the
field stays unset. -/
theorem c5_freeze_majority (d : PyDate) (obs : List ObsRec) :
    (obs.filterMap (fun o => o.freeze_day) = [] →
      (cityAggregate d obs).freeze_day_city = none) ∧
    (obs.filterMap (fun o => o.freeze_day) ≠ [] →
      (cityAggregate d obs).freeze_day_city ≠ none ∧
      ((cityAggregate d obs).freeze_day_city = some true ↔
        (obs.filterMap (fun o => o.freeze_day)).length ≤
          2 * ((obs.filterMap (fun o => o.freeze_day)).filter (· = true)).length)) := by
  have hc : (cityAggregate d obs).freeze_day_city =
      (if obs.filterMap (fun o => o.freeze_day) = [] then none
       else some (decide
        ((((obs.filterMap (fun o => o.freeze_day)).filter (· = true)).length : ℚ) ≥
          ((obs.filterMap (fun o => o.freeze_day)).length : ℚ) / 2))) := by
    simp [cityAggregate]
  have key : ((((obs.filterMap (fun o => o.freeze_day)).filter (· = true)).length : ℚ) ≥
      ((obs.filterMap (fun o => o.freeze_day)).length : ℚ) / 2) ↔
      (obs.filterMap (fun o => o.freeze_day)).length ≤
        2 * ((obs.filterMap (fun o => o.freeze_day)).filter (· = true)).length := by
    rw [ge_iff_le, div_le_iff (by norm_num : (0 : ℚ) < 2)]
    constructor
    · intro h1
      have h2 : ((obs.filterMap (fun o => o.freeze_day)).length : ℚ) ≤
          2 * (((obs.filterMap (fun o => o.freeze_day)).filter (· = true)).length : ℚ) := by
        linarith
      exact_mod_cast h2
    · intro h1
      have h2 : ((obs.filterMap (fun o => o.freeze_day)).length : ℚ) ≤
          2 * (((obs.filterMap (fun o => o.freeze_day)).filter (· = true)).length : ℚ) := by
        exact_mod_cast h1
      linarith
  constructor
  · intro h
    rw [hc, if_pos h]
  · intro h
    rw [hc, if_neg h]
    refine ⟨by simp, ?_⟩
    rw [Option.some_inj, decide_eq_true_iff]
    exact key

/-- C5 witness: one of two reporting stations reports freeze (an exact tie):
the city flag is set and is true. -/
theorem c5_witness :
    ([({ t_max_c := none, t_min_c := none, t_mean_c := none, total_rain_mm := none,
         total_snow_cm := none, total_precip_mm := none, snow_on_ground_cm := none,
         gust_dir_10deg := none, gust_kmh := none, weather_day := none,
         freeze_day := some true } : ObsRec),
      ({ t_max_c := none, t_min_c := none, t_mean_c := none, total_rain_mm := none,
         total_snow_cm := none, total_precip_mm := none, snow_on_ground_cm := none,
         gust_dir_10deg := none, gust_kmh := none, weather_day := none,
         freeze_day := some false } : ObsRec)].filterMap (fun o => o.freeze_day) ≠ []) ∧
    (cityAggregate ⟨2024, 1, 16⟩
      [{ t_max_c := none, t_min_c := none, t_mean_c := none, total_rain_mm := none,
         total_snow_cm := none, total_precip_mm := none, snow_on_ground_cm := none,
         gust_dir_10deg := none, gust_kmh := none, weather_day := none,
         freeze_day := some true },
       { t_max_c := none, t_min_c := none, t_mean_c := none, total_rain_mm := none,
         total_snow_cm := none, total_precip_mm := none, snow_on_ground_cm := none,
         gust_dir_10deg := none, gust_kmh := none, weather_day := none,
         freeze_day := some false }]).freeze_day_city = some true :=
  ⟨by decide, ((c5_freeze_majority ⟨2024, 1, 16⟩ _).2 (by decide)).2.mpr (by decide)⟩

/-- C7: in the near endpoint, a radius above 10 is clamped to 10, a
non-positive radius is replaced by the default 1.0, and a limit above 500 is
clamped to 500. -/
theorem c7_clamps (q : ℚ) (n : ℤ) :
    (10 < q → clampRadius (.num q) = .num 10) ∧
    (q ≤ 0 → clampRadius (.num q) = .num 1) ∧
    (500 < n → clampLimit n = 500) := by
  refine ⟨?_, ?_, ?_⟩
  · intro h
    have h0 : pyLe (.num q) (.num 0) = false := by
      simp [pyLe]; linarith
    have h1 : pyLt (.num 10) (.num q) = true := by
      simp [pyLt]; exact h
    simp [clampRadius, pyMin, h0, h1]
  · intro h
    have h0 : pyLe (.num q) (.num 0) = true := by
      simp [pyLe, h]
    have h1 : pyLt (.num 10) (.num 1) = false := by
      norm_num [pyLt]
    simp [clampRadius, pyMin, h0, h1]
  · intro h
    simp only [clampLimit]
    omega

/-- C7 witness: radius 12 clamps to 10, radius -3 resets to 1, limit 501
clamps to 500. -/
theorem c7_witness :
    ((10 : ℚ) < 12 ∧ clampRadius (.num 12) = .num 10) ∧
    ((-3 : ℚ) ≤ 0 ∧ clampRadius (.num (-3)) = .num 1) ∧
    ((500 : ℤ) < 501 ∧ clampLimit 501 = 500) :=
  ⟨⟨by norm_num, (c7_clamps 12 501).1 (by norm_num)⟩,
   ⟨by norm_num, (c7_clamps (-3) 501).2.1 (by norm_num)⟩,
   ⟨by norm_num, (c7_clamps 12 501).2.2 (by norm_num)⟩⟩

/-- The two stations of the repository test for the station filter
(tests/test_filters_additional.py): Calgary Intl A with climate id AB3031092,
and University with the all-digit climate id 3032000. -/
def c1Stations : List Station :=
  [⟨1, "AB3031092", "Calgary Intl A", -114, 51⟩,
   ⟨2, "3032000", "University", -114, 51⟩]

/-- A collision near station 1. -/
def c1CollA : CollisionRec :=
  { collision_id := "C1-A", occurred_at := ⟨2024, 1, 2, 1, 0, 0⟩, modified_at := none,
    date := ⟨2024, 1, 2⟩, hour := 1, weekday := 1, month := 1, quadrant := .NE,
    longitude := -114, latitude := 51, count := 1, description := "",
    location_text := "", intersection_key := (51, -114),
    nearest_station_id := some 1 }

/-- A collision near station 2. -/
def c1CollB : CollisionRec :=
  { collision_id := "C1-B", occurred_at := ⟨2024, 1, 3, 1, 0, 0⟩, modified_at := none,
    date := ⟨2024, 1, 3⟩, hour := 1, weekday := 2, month := 1, quadrant := .NW,
    longitude := -114, latitude := 51, count := 1, description := "",
    location_text := "", intersection_key := (51, -114),
    nearest_station_id := some 2 }

/-- C1: the station filter as implemented returns nothing for a name
substring (university) or a lowercased climate id (ab3031092), although the
numeric-id branch works; the spec reading of the filter, which the tests of
the repository assert, returns the respective collision in each case. -/
theorem c1_station_filter_divergence :
    filter_station c1Stations [c1CollA, c1CollB] "university" = [] ∧
    filter_station c1Stations [c1CollA, c1CollB] "ab3031092" = [] ∧
    filter_station c1Stations [c1CollA, c1CollB] "1" = [c1CollA] ∧
    filter_station_spec c1Stations [c1CollA, c1CollB] "university" = [c1CollB] ∧
    filter_station_spec c1Stations [c1CollA, c1CollB] "ab3031092" = [c1CollA] := by
  refine ⟨?_, ?_, ?_, ?_, ?_⟩ <;> decide

/-- The three rows of the C8 loader scenario: a row with an empty id cell, a
row with a nan longitude, and an in-bounds row with an empty count cell
(tests/test_commands.py::test_load_collisions_skip_reasons). -/
def c8Rows : List CollisionRow :=
  [{ id_lower := some "", longitude := some "-114.0", latitude := some "50.9",
     start_dt := some "2024/01/02 01:00:00 AM", modified_dt := some "2024/01/02 01:05:00 AM",
     description := some "Desc", incident_info := some "No Id", count := some "1",
     quadrant := some "SE" },
   { id_lower := some "BAD-1", longitude := some "nan", latitude := some "50.9",
     start_dt := some "2024/01/02 01:00:00 AM", modified_dt := some "2024/01/02 01:05:00 AM",
     description := some "Desc", incident_info := some "Bad Coords", count := some "1",
     quadrant := some "NW" },
   { id_lower := some "GOOD-1", longitude := some "-114.02", latitude := some "50.95",
     start_dt := some "2024/01/02 01:00:00 AM", modified_dt := some "2024/01/02 01:05:00 AM",
     description := some "Desc", incident_info := some "Good", count := some "",
     quadrant := some "NE" }]

/-- The loader run of the C8 scenario (no stations are loaded, so the
abstract distance function is never consulted). -/
def c8Run : CollStore × CollCounters :=
  loadCollisions [] (fun _ _ _ _ => 0) c8Rows (emptyCollStore, zeroCounters)

/-- C8: the three-row file creates exactly one record (created 1, updated 0),
the created record has count 1, the run completes with the skip breakdown
no_id=1, invalid_coords=1 and nothing in the other buckets.  (The loader is a
total function of the rows, so the run cannot abort.) -/
theorem c8_loader_scenario :
    c8Run.2 = (⟨1, 0, 2, 1, 1, 0, 0, 0⟩ : CollCounters) ∧
    (c8Run.1 "GOOD-1").map (fun c => c.count) = some 1 := by
  constructor <;> decide

/-- C10: every successful proximity response reports a count equal to the
length of its result list, and that length is at most the clamped limit
echoed in the response. -/
theorem c10_near_count (cosF : ℚ → ℚ) (distF : ℚ → ℚ → ℚ → ℚ → ℚ) (db : Db)
    (latS lonS radiusS limitS : Option String) (fp : FilterParams) (resp : NearResponse)
    (h : nearGet cosF distF db latS lonS radiusS limitS fp = Except.ok resp) :
    resp.count = resp.results.length ∧
    resp.results.length ≤ resp.limit.toNat ∧
    resp.limit = clampLimit (limitOf limitS) := by
  unfold nearGet at h
  split at h
  · split at h
    · split at h
      · rw [Except.ok.injEq] at h
        subst h
        refine ⟨rfl, ?_, rfl⟩
        simp [nearCore, List.length_take]
      · simp at h
    · simp at h
  · simp at h

/-- A collision at the query center, for the C10 witness. -/
def c10Coll : CollisionRec :=
  { collision_id := "C10-1", occurred_at := ⟨2024, 1, 2, 1, 0, 0⟩, modified_at := none,
    date := ⟨2024, 1, 2⟩, hour := 1, weekday := 1, month := 1, quadrant := .NE,
    longitude := -114, latitude := 51, count := 1, description := "",
    location_text := "loc", intersection_key := (51, -114), nearest_station_id := none }

/-- C10 witness: a concrete query with limit 2 returns one row, count 1 equal
to the list length, within the echoed limit. -/
theorem c10_witness :
    nearGet (fun _ => 1) (fun _ _ _ _ => 0) ⟨[], [], [], [c10Coll]⟩
        (some "51") (some "-114") none (some "2") {} =
      Except.ok ⟨51, -114, .num 1, 2,
        [⟨"C10-1", ⟨2024, 1, 2, 1, 0, 0⟩, .NE, -114, 51, 1, "loc", 0⟩], 1⟩ ∧
    ((⟨51, -114, .num 1, 2,
        [⟨"C10-1", ⟨2024, 1, 2, 1, 0, 0⟩, .NE, -114, 51, 1, "loc", 0⟩], 1⟩ : NearResponse).count =
      (⟨51, -114, .num 1, 2,
        [⟨"C10-1", ⟨2024, 1, 2, 1, 0, 0⟩, .NE, -114, 51, 1, "loc", 0⟩], 1⟩ : NearResponse).results.length ∧
     (⟨51, -114, .num 1, 2,
        [⟨"C10-1", ⟨2024, 1, 2, 1, 0, 0⟩, .NE, -114, 51, 1, "loc", 0⟩], 1⟩ : NearResponse).results.length ≤
      (⟨51, -114, .num 1, 2,
        [⟨"C10-1", ⟨2024, 1, 2, 1, 0, 0⟩, .NE, -114, 51, 1, "loc", 0⟩], 1⟩ : NearResponse).limit.toNat ∧
     (⟨51, -114, .num 1, 2,
        [⟨"C10-1", ⟨2024, 1, 2, 1, 0, 0⟩, .NE, -114, 51, 1, "loc", 0⟩], 1⟩ : NearResponse).limit =
      clampLimit (limitOf (some "2"))) :=
  ⟨by rfl, c10_near_count (fun _ => 1) (fun _ _ _ _ => 0) ⟨[], [], [], [c10Coll]⟩
    (some "51") (some "-114") none (some "2") {} _ (by rfl)⟩

/-- Transitivity of the date order. -/
theorem dateLe_trans (a b c : PyDate) (h1 : dateLe a b = true) (h2 : dateLe b c = true) :
    dateLe a c = true := by
  unfold dateLe at h1 h2 ⊢
  split_ifs at h1 h2 ⊢ <;> simp_all <;> omega

/-- An inverted range filters every collision away. -/
theorem filter_fromto_nil (qs : List CollisionRec) (a b : PyDate)
    (hab : dateLe a b = false) : filter_to (filter_from qs a) b = [] := by
  unfold filter_to
  rw [List.filter_eq_nil]
  intro c hc h2
  have h1 : dateLe a c.date = true := by
    unfold filter_from at hc
    exact (List.mem_filter.mp hc).2
  have := dateLe_trans a c.date b h1 h2
  rw [hab] at this
  exact Bool.noConfusion this

/-- A date step on the empty set stays empty. -/
theorem stepDate_nil (f : List CollisionRec → PyDate → List CollisionRec)
    (v : Option String) (hf : ∀ d, f [] d = []) : stepDate f v [] = [] := by
  unfold stepDate
  split
  · exact hf _
  · rfl

/-- A string step on the empty set stays empty. -/
theorem stepStr_nil (f : List CollisionRec → String → List CollisionRec)
    (v : Option String) (hf : ∀ s, f [] s = []) : stepStr f v [] = [] := by
  cases v with
  | none => rfl
  | some s =>
    simp only [stepStr]
    split
    · rfl
    · exact hf s

/-- The weather-day filter on the empty set stays empty. -/
theorem filter_weather_day_city_nil (city : List CityRec) (v : String) :
    filter_weather_day_city city [] v = [] := by
  simp only [filter_weather_day_city, List.filter_nil]
  split
  · rfl
  · split <;> rfl

/-- The freeze filter on the empty set stays empty. -/
theorem filter_freeze_day_city_nil (city : List CityRec) (v : String) :
    filter_freeze_day_city city [] v = [] := by
  unfold filter_freeze_day_city
  split <;> rfl

/-- The heavy-rain filter on the empty set stays empty. -/
theorem filter_heavy_rain_nil (city : List CityRec) (v : String) :
    filter_heavy_rain city [] v = [] := by
  unfold filter_heavy_rain
  split <;> rfl

/-- The heavy-snow filter on the empty set stays empty. -/
theorem filter_heavy_snow_nil (city : List CityRec) (v : String) :
    filter_heavy_snow city [] v = [] := by
  unfold filter_heavy_snow
  split <;> rfl

/-- The gust filter on the empty set stays empty. -/
theorem filter_gust_min_nil (observations : List GustObs) (v : String) :
    filter_gust_min observations [] v = [] := by
  unfold filter_gust_min
  split <;> rfl

/-- The station filter on the empty set stays empty. -/
theorem filter_station_nil (stations : List Station) (v : String) :
    filter_station stations [] v = [] := by
  simp only [filter_station, List.filter_nil]
  split_ifs <;> rfl

/-- With an inverted date range supplied, the whole filter pipeline returns
the empty set. -/
theorem collisionFilter_inverted (db : Db) (p : FilterParams) (fs ts : String)
    (a b : PyDate) (hf : p.from_date = some fs) (ht : p.to_date = some ts)
    (ha : cleanDate fs = some a) (hb : cleanDate ts = some b)
    (hab : dateLe a b = false) : collisionFilter db p = [] := by
  have h1 : stepDate filter_from p.from_date db.collisions = filter_from db.collisions a := by
    rw [hf]
    simp [stepDate, ha]
  have h2 : stepDate filter_to p.to_date (filter_from db.collisions a) = [] := by
    rw [ht]
    simp only [stepDate, Option.some_bind, hb]
    exact filter_fromto_nil db.collisions a b hab
  unfold collisionFilter
  rw [h1, h2,
    stepStr_nil filter_quadrant p.quadrant (fun _ => rfl),
    stepStr_nil _ p.weather_day_city (fun v => filter_weather_day_city_nil db.city v),
    stepStr_nil _ p.freeze_day_city (fun v => filter_freeze_day_city_nil db.city v),
    stepStr_nil _ p.heavy_rain (fun v => filter_heavy_rain_nil db.city v),
    stepStr_nil _ p.heavy_snow (fun v => filter_heavy_snow_nil db.city v),
    stepStr_nil _ p.gust_min (fun v => filter_gust_min_nil db.observations v),
    stepStr_nil _ p.station (fun v => filter_station_nil db.stations v)]

/-- With an empty filtered base set, the near pipeline returns an empty
response with count 0 and the parameters echoed. -/
theorem nearCore_nil (cosF : ℚ → ℚ) (distF : ℚ → ℚ → ℚ → ℚ → ℚ) (db : Db)
    (fp : FilterParams) (lat lon : ℚ) (radius : PFloat) (lim : ℤ)
    (h : collisionFilter db fp = []) :
    nearCore cosF distF db fp lat lon radius lim = ⟨lat, lon, radius, lim, [], 0⟩ := by
  unfold nearCore nearPending nearCandidates
  rw [h]
  simp

/-- C2 (amended): the date-range filters are inclusive on both ends; a query
with both dates parseable and from after to is rejected by the shared
validator, which the list endpoint (and every stats endpoint) runs first; the
proximity endpoint never runs the validator and instead answers such a query
with success and an empty result list. -/
theorem c2_amended_date_range :
    (∀ (qs : List CollisionRec) (fromD toD : PyDate) (c : CollisionRec),
      c ∈ filter_to (filter_from qs fromD) toD ↔
        c ∈ qs ∧ dateLe fromD c.date = true ∧ dateLe c.date toD = true) ∧
    (∀ (fs ts : String) (a b : PyDate), parse_date fs = some a → parse_date ts = some b →
      dateLe a b = false →
      (validate_date_range (some fs) (some ts)).isSome = true ∧
      ∀ (db : Db) (p : FilterParams), p.from_date = some fs → p.to_date = some ts →
        ∃ e, listGet db p = Except.error e) ∧
    (∀ (cosF : ℚ → ℚ) (distF : ℚ → ℚ → ℚ → ℚ → ℚ) (db : Db)
      (latS lonS radiusS limitS : Option String) (p : FilterParams)
      (fs ts : String) (a b : PyDate) (latp lonp : ℚ),
      p.from_date = some fs → p.to_date = some ts →
      cleanDate fs = some a → cleanDate ts = some b → dateLe a b = false →
      latS.bind parsePyFloat = some (.num latp) → lonS.bind parsePyFloat = some (.num lonp) →
      (pyLe (.num (-90)) (.num latp) && pyLe (.num latp) (.num 90) &&
        pyLe (.num (-180)) (.num lonp) && pyLe (.num lonp) (.num 180)) = true →
      nearGet cosF distF db latS lonS radiusS limitS p =
        Except.ok ⟨latp, lonp, clampRadius (radiusOf radiusS),
          clampLimit (limitOf limitS), [], 0⟩) := by
  refine ⟨?_, ?_, ?_⟩
  · intro qs fromD toD c
    unfold filter_to filter_from
    simp only [List.mem_filter, and_assoc]
  · intro fs ts a b ha hb hab
    have hfs : fs ≠ "" := by
      intro h
      subst h
      rw [show parse_date "" = none from rfl] at ha
      simp at ha
    have hts : ts ≠ "" := by
      intro h
      subst h
      rw [show parse_date "" = none from rfl] at hb
      simp at hb
    have hv : validate_date_range (some fs) (some ts) = some "from must be <= to" := by
      unfold validate_date_range
      simp [ha, hb, hfs, hts, hab]
    refine ⟨by rw [hv]; rfl, ?_⟩
    intro db p hpf hpt
    unfold listGet
    rw [hpf, hpt, hv]
    exact ⟨_, rfl⟩
  · intro cosF distF db latS lonS radiusS limitS p fs ts a b latp lonp
      hpf hpt hca hcb hab hlat hlon hbounds
    unfold nearGet
    rw [hlat, hlon]
    simp only [hbounds, if_true]
    rw [nearCore_nil cosF distF db p latp lonp _ _
      (collisionFilter_inverted db p fs ts a b hpf hpt hca hcb hab)]

/-- A June collision, present in the C2 counterexample database. -/
def c2Coll : CollisionRec :=
  { collision_id := "C2-1", occurred_at := ⟨2024, 6, 15, 9, 0, 0⟩, modified_at := none,
    date := ⟨2024, 6, 15⟩, hour := 9, weekday := 5, month := 6, quadrant := .NE,
    longitude := -114, latitude := 51, count := 1, description := "",
    location_text := "", intersection_key := (51, -114), nearest_station_id := none }

/-- C2 counterexample: a proximity query carrying the inverted range
from=2024-12-31, to=2024-01-01 is not rejected as a client error; the
endpoint answers 200 with an empty result list (compare the list endpoint,
which raises a ValidationError on the same parameters). -/
theorem c2_counterexample_near_accepts_inverted_range :
    nearGet (fun _ => 1) (fun _ _ _ _ => 0) ⟨[], [], [], [c2Coll]⟩
        (some "51") (some "-114") none none
        { from_date := some "2024-12-31", to_date := some "2024-01-01" } =
      Except.ok ⟨51, -114, .num 1, 100, [], 0⟩ := by
  rfl

/-- C2 witness: the concrete inverted range 2024-12-31 .. 2024-01-01 parses,
is out of order, makes the validator report an error, and makes the list
endpoint fail. -/
theorem c2_witness :
    (parse_date "2024-12-31" = some ⟨2024, 12, 31⟩ ∧
      parse_date "2024-01-01" = some ⟨2024, 1, 1⟩ ∧
      dateLe ⟨2024, 12, 31⟩ ⟨2024, 1, 1⟩ = false) ∧
    (validate_date_range (some "2024-12-31") (some "2024-01-01")).isSome = true ∧
    (∃ e, listGet ⟨[], [], [], [c2Coll]⟩
      { from_date := some "2024-12-31", to_date := some "2024-01-01" } = Except.error e) :=
  ⟨⟨by decide, by decide, by decide⟩,
   (c2_amended_date_range.2.1 "2024-12-31" "2024-01-01" ⟨2024, 12, 31⟩ ⟨2024, 1, 1⟩
     (by decide) (by decide) (by decide)).1,
   (c2_amended_date_range.2.1 "2024-12-31" "2024-01-01" ⟨2024, 12, 31⟩ ⟨2024, 1, 1⟩
     (by decide) (by decide) (by decide)).2
     ⟨[], [], [], [c2Coll]⟩ _ rfl rfl⟩

/-- Inserting a row into a list keeps the rows of any fixed distance in
place: the new row lands in front of its distance class, behind every
strictly smaller distance. -/
theorem filter_orderedInsert_key (q : ℚ) (a : NearRow) (l : List NearRow) :
    (List.orderedInsert nearRel a l).filter (fun x => decide (x.distance_km = q)) =
      if a.distance_km = q then
        a :: l.filter (fun x => decide (x.distance_km = q))
      else l.filter (fun x => decide (x.distance_km = q)) := by
  induction l with
  | nil =>
    by_cases haq : a.distance_km = q <;> simp [List.orderedInsert, haq]
  | cons b t ih =>
    simp only [List.orderedInsert]
    by_cases hr : nearRel a b
    · rw [if_pos hr]
      by_cases haq : a.distance_km = q <;> by_cases hbq : b.distance_km = q <;>
        simp [List.filter_cons, haq, hbq]
    · rw [if_neg hr]
      by_cases haq : a.distance_km = q
      · have hbq : b.distance_km ≠ q := fun hb => hr (by simp [nearRel, haq, hb])
        simp [List.filter_cons, hbq, ih, haq]
      · by_cases hbq : b.distance_km = q <;> simp [List.filter_cons, hbq, ih, haq]

/-- The insertion sort of the near endpoint is stable: restricted to any one
distance value, the sorted list equals the unsorted list. -/
theorem filter_insertionSort_key (q : ℚ) (l : List NearRow) :
    (List.insertionSort nearRel l).filter (fun x => decide (x.distance_km = q)) =
      l.filter (fun x => decide (x.distance_km = q)) := by
  induction l with
  | nil => rfl
  | cons a t ih =>
    simp only [List.insertionSort]
    rw [filter_orderedInsert_key]
    by_cases haq : a.distance_km = q <;> simp [List.filter_cons, haq, ih]

/-- C6 (amended): every result row of the near pipeline is the 3-decimal
rounding of a computed distance that is at most the clamped radius (the
rounded value itself may exceed the radius, see the counterexample); the
result list is sorted non-decreasingly by the reported distance; and it is
the limit-truncation of a stable sort of the annotated candidate list (rows
of equal reported distance keep their original order). -/
theorem c6_amended_near_results (cosF : ℚ → ℚ) (distF : ℚ → ℚ → ℚ → ℚ → ℚ)
    (db : Db) (fp : FilterParams) (lat lon : ℚ) (radius : PFloat) (lim : ℤ) :
    (∀ row ∈ (nearCore cosF distF db fp lat lon radius lim).results,
      ∃ d, pyLe (.num d) radius = true ∧ row.distance_km = round3 d) ∧
    List.Sorted nearRel (nearCore cosF distF db fp lat lon radius lim).results ∧
    (nearCore cosF distF db fp lat lon radius lim).results =
      (List.insertionSort nearRel
        (nearPending distF lat lon radius
          (nearCandidates cosF db fp lat lon radius))).take lim.toNat ∧
    (∀ q : ℚ,
      (List.insertionSort nearRel
        (nearPending distF lat lon radius
          (nearCandidates cosF db fp lat lon radius))).filter
            (fun row => decide (row.distance_km = q)) =
      (nearPending distF lat lon radius
        (nearCandidates cosF db fp lat lon radius)).filter
          (fun row => decide (row.distance_km = q))) := by
  have hres : (nearCore cosF distF db fp lat lon radius lim).results =
      (List.insertionSort nearRel
        (nearPending distF lat lon radius
          (nearCandidates cosF db fp lat lon radius))).take lim.toNat := rfl
  refine ⟨?_, ?_, hres, fun q => filter_insertionSort_key q _⟩
  · intro row hrow
    rw [hres] at hrow
    have h2 : row ∈ List.insertionSort nearRel
        (nearPending distF lat lon radius (nearCandidates cosF db fp lat lon radius)) :=
      List.take_subset _ _ hrow
    rw [List.mem_insertionSort] at h2
    unfold nearPending at h2
    obtain ⟨c, _, heq⟩ := List.mem_filterMap.mp h2
    by_cases hd : pyLe (.num (distF lon lat c.longitude c.latitude)) radius = true
    · rw [if_pos hd] at heq
      refine ⟨distF lon lat c.longitude c.latitude, hd, ?_⟩
      have := Option.some.inj heq
      rw [← this]
    · rw [if_neg hd] at heq
      exact absurd heq (by simp)
  · rw [hres]
    exact List.Pairwise.sublist (List.take_sublist _ _)
      (List.sorted_insertionSort nearRel _)

/-- The single collision of the C6 counterexample database, at the query
center. -/
def c6Coll : CollisionRec :=
  { collision_id := "C6-1", occurred_at := ⟨2024, 1, 2, 1, 0, 0⟩, modified_at := none,
    date := ⟨2024, 1, 2⟩, hour := 1, weekday := 1, month := 1, quadrant := .NE,
    longitude := -114, latitude := 51, count := 1, description := "",
    location_text := "", intersection_key := (51, -114), nearest_station_id := none }

/-- C6 counterexample: with radius_km 0.0008 and one candidate at computed
distance 0.00075 km (0.75 m, within the radius), the reported distance_km is
the rounding 0.001, which exceeds the radius, so the claim that every
reported distance_km is at most the radius fails. -/
theorem c6_counterexample_rounded_distance :
    (match nearGet (fun _ => 1) (fun _ _ _ _ => qOf 3 4000) ⟨[], [], [], [c6Coll]⟩
        (some "51") (some "-114") (some "0.0008") none {} with
     | Except.ok resp => resp.results.all (fun row => pyLe (.num row.distance_km) resp.radius_km)
     | Except.error _ => true) = false := by
  decide

/-!
Replay of keyed upserts.  A loader pass is a sequence of (key, value)
assignments on a table; re-running the same sequence leaves the table
unchanged, because every key ends at its last assigned value.
-/

/-- One keyed assignment on a table. -/
def applyAsg {K V : Type} [DecidableEq K] (f : K → Option V) (kv : K × V) :
    K → Option V :=
  fun k => if k = kv.1 then some kv.2 else f k

/-- A sequence of keyed assignments, applied left to right. -/
def applyAsgs {K V : Type} [DecidableEq K] (l : List (K × V)) (f : K → Option V) :
    K → Option V :=
  l.foldl applyAsg f

/-- The last value assigned to a key by a sequence, if any. -/
def lastAsg {K V : Type} [DecidableEq K] : List (K × V) → K → Option V
  | [], _ => none
  | kv :: t, k =>
    match lastAsg t k with
    | some v => some v
    | none => if k = kv.1 then some kv.2 else none

/-- A table after a sequence of assignments: each assigned key holds its last
value, every other key is untouched. -/
theorem applyAsgs_lookup {K V : Type} [DecidableEq K] (l : List (K × V))
    (f : K → Option V) (k : K) :
    applyAsgs l f k = match lastAsg l k with | some v => some v | none => f k := by
  induction l generalizing f with
  | nil => rfl
  | cons kv t ih =>
    show applyAsgs t (applyAsg f kv) k = _
    rw [ih]
    cases h : lastAsg t k with
    | some v => simp [lastAsg, h]
    | none =>
      simp only [lastAsg, h, applyAsg]
      by_cases hk : k = kv.1 <;> simp [hk]

/-- Replaying a sequence of assignments is the identity. -/
theorem applyAsgs_idem {K V : Type} [DecidableEq K] (l : List (K × V))
    (f : K → Option V) : applyAsgs l (applyAsgs l f) = applyAsgs l f := by
  funext k
  rw [applyAsgs_lookup]
  cases h : lastAsg l k with
  | some v => rw [applyAsgs_lookup]; simp [h]
  | none => simp [h]

/-- The assignment a collision row performs, if it is not skipped.  The
record is a function of the row and the fixed station table alone, which is
what makes the collision loader replay-stable. -/
def collisionAsg (stations : List Station) (distF : ℚ → ℚ → ℚ → ℚ → ℚ)
    (row : CollisionRow) : Option (String × CollisionRec) :=
  match processCollisionRow stations distF row with
  | .upsert k v => some (k, v)
  | .skip _ => none

/-- The store component of a collision load is the assignment sequence of
its rows applied to the starting store. -/
theorem loadCollisions_store (stations : List Station)
    (distF : ℚ → ℚ → ℚ → ℚ → ℚ) (rows : List CollisionRow) :
    ∀ st : CollStore × CollCounters,
      (loadCollisions stations distF rows st).1 =
        applyAsgs (rows.filterMap (collisionAsg stations distF)) st.1 := by
  induction rows with
  | nil => intro st; rfl
  | cons r t ih =>
    intro st
    simp only [loadCollisions, List.foldl_cons] at ih ⊢
    rw [ih]
    rw [List.filterMap_cons]
    unfold collisionAsg applyCollisionRow
    cases h : processCollisionRow stations distF r with
    | skip reason => simp [h]
    | upsert k v =>
      simp only [h]
      cases hs : st.1 k <;> rfl

/-- The stored table after a collision load started with zeroed counters. -/
def loadCollisionsStore (stations : List Station) (distF : ℚ → ℚ → ℚ → ℚ → ℚ)
    (rows : List CollisionRow) (s : CollStore) : CollStore :=
  (loadCollisions stations distF rows (s, zeroCounters)).1

/-- The observation assignment a weather row performs under a given station
key: keyed by (climate id, parsed date), valued by the row-determined
defaults. -/
def wObsAsgAt (cid : String) (row : WeatherRow) : Option ((String × PyDate) × ObsRec) :=
  match row.date_str with
  | none => none
  | some ds =>
    if ds = "" then none
    else (wObsDate ds).map (fun d => ((cid, d), obsOfRow row))

/-- The station assignment of a weather row, defined when the row carries a
climate id and both coordinates: the station ends at the row name and
coordinates whether it is created or updated. -/
def wRowStationAsg (row : WeatherRow) : Option (String × WStation) :=
  if wClimate row = "" then none
  else
    match coerce_float row.longitude, coerce_float row.latitude with
    | some lo, some la => some (wClimate row, ⟨wName row, lo, la⟩)
    | _, _ => none

/-- The observation assignment of a weather row. -/
def wRowObsAsg (row : WeatherRow) : Option ((String × PyDate) × ObsRec) :=
  if wClimate row = "" then none else wObsAsgAt (wClimate row) row

/-- The proviso of the amended idempotence claim: a row carrying a climate id
also carries both coordinates (so the skip-until-coordinates path of the
loader is never taken). -/
def wRowHyp (row : WeatherRow) : Prop :=
  wClimate row ≠ "" →
    (coerce_float row.longitude).isSome ∧ (coerce_float row.latitude).isSome

/-- The row name is never empty ("Unknown" is substituted for a falsy cell). -/
theorem wName_ne_empty (row : WeatherRow) : wName row ≠ "" := by
  unfold wName pyOrStr
  cases row.station_name with
  | none => decide
  | some s =>
    show (if s = "" then "Unknown" else s) ≠ ""
    by_cases h : s = ""
    · rw [if_pos h]; decide
    · rw [if_neg h]; exact h

/-- The observation half of a row does not touch the station table. -/
theorem loadWeatherObsPart_stations (st : WLoadState) (cid : String)
    (row : WeatherRow) :
    (loadWeatherObsPart st cid row).store.stations = st.store.stations := by
  unfold loadWeatherObsPart
  cases hds : row.date_str with
  | none => rfl
  | some ds =>
    dsimp only
    by_cases he : ds = ""
    · rw [if_pos he]
    · rw [if_neg he]
      cases hod : wObsDate ds with
      | none => rfl
      | some d =>
        dsimp only
        cases ho : st.store.obs (cid, d) <;> rfl

/-- The observation half of a row performs exactly its observation
assignment. -/
theorem loadWeatherObsPart_obs (st : WLoadState) (cid : String) (row : WeatherRow) :
    (loadWeatherObsPart st cid row).store.obs =
      (match wObsAsgAt cid row with
       | some kv => applyAsg st.store.obs kv
       | none => st.store.obs) := by
  unfold loadWeatherObsPart wObsAsgAt
  cases hds : row.date_str with
  | none => rfl
  | some ds =>
    dsimp only
    by_cases he : ds = ""
    · simp [he]
    · simp only [if_neg he]
      cases hod : wObsDate ds with
      | none => rfl
      | some d =>
        dsimp only
        cases ho : st.store.obs (cid, d) <;> rfl

/-- Under the coordinate proviso, one loader row updates the station table by
exactly its station assignment: whether the station is created or updated in
place, it ends at the row name and coordinates. -/
theorem loadWeatherRow_stations (st : WLoadState) (row : WeatherRow)
    (h : wRowHyp row) :
    (loadWeatherRow st row).store.stations =
      (match wRowStationAsg row with
       | some kv => applyAsg st.store.stations kv
       | none => st.store.stations) := by
  by_cases hc : wClimate row = ""
  · unfold loadWeatherRow wRowStationAsg
    dsimp only
    rw [if_pos hc, if_pos hc]
  · obtain ⟨hlo1, hla1⟩ := h hc
    obtain ⟨lo, hlo⟩ := Option.isSome_iff_exists.mp hlo1
    obtain ⟨la, hla⟩ := Option.isSome_iff_exists.mp hla1
    have hasg : wRowStationAsg row = some (wClimate row, ⟨wName row, lo, la⟩) := by
      unfold wRowStationAsg
      rw [if_neg hc, hlo, hla]
    rw [hasg]
    unfold loadWeatherRow
    dsimp only
    rw [if_neg hc, hlo, hla]
    cases hstat : st.store.stations (wClimate row) with
    | none =>
      dsimp only
      rw [loadWeatherObsPart_stations]
      rfl
    | some s0 =>
      dsimp only
      split
      · rw [loadWeatherObsPart_stations]
        funext k
        by_cases hk : k = wClimate row
        · by_cases hn : s0.name = wName row <;>
            simp [applyAsg, hk, hn, wName_ne_empty row]
        · simp [applyAsg, hk]
      · rw [loadWeatherObsPart_stations]
        funext k
        by_cases hk : k = wClimate row
        · by_cases hn : s0.name = wName row <;>
            simp [applyAsg, hk, hn, wName_ne_empty row]
        · simp [applyAsg, hk]

/-- Under the coordinate proviso, one loader row updates the observation
table by exactly its observation assignment. -/
theorem loadWeatherRow_obs (st : WLoadState) (row : WeatherRow) (h : wRowHyp row) :
    (loadWeatherRow st row).store.obs =
      (match wRowObsAsg row with
       | some kv => applyAsg st.store.obs kv
       | none => st.store.obs) := by
  by_cases hc : wClimate row = ""
  · unfold loadWeatherRow wRowObsAsg
    dsimp only
    rw [if_pos hc, if_pos hc]
  · obtain ⟨hlo1, hla1⟩ := h hc
    obtain ⟨lo, hlo⟩ := Option.isSome_iff_exists.mp hlo1
    obtain ⟨la, hla⟩ := Option.isSome_iff_exists.mp hla1
    have hasg : wRowObsAsg row = wObsAsgAt (wClimate row) row := by
      unfold wRowObsAsg
      rw [if_neg hc]
    rw [hasg]
    unfold loadWeatherRow
    dsimp only
    rw [if_neg hc, hlo, hla]
    cases hstat : st.store.stations (wClimate row) with
    | none =>
      dsimp only
      rw [loadWeatherObsPart_obs]
    | some s0 =>
      dsimp only
      split
      · rw [loadWeatherObsPart_obs]
      · rw [loadWeatherObsPart_obs]

/-- Under the proviso, a weather load applies exactly the station assignment
sequence of its rows. -/
theorem loadWeather_stations (rows : List WeatherRow) :
    (∀ r ∈ rows, wRowHyp r) → ∀ st : WLoadState,
      (loadWeather rows st).store.stations =
        applyAsgs (rows.filterMap wRowStationAsg) st.store.stations := by
  induction rows with
  | nil => intro _ st; rfl
  | cons r t ih =>
    intro h st
    simp only [loadWeather, List.foldl_cons] at ih ⊢
    rw [ih (fun x hx => h x (List.mem_cons_of_mem r hx)) (loadWeatherRow st r)]
    rw [loadWeatherRow_stations st r (h r (List.mem_cons_self r t))]
    rw [List.filterMap_cons]
    cases has : wRowStationAsg r with
    | none => rfl
    | some kv => rfl

/-- Under the proviso, a weather load applies exactly the observation
assignment sequence of its rows. -/
theorem loadWeather_obs (rows : List WeatherRow) :
    (∀ r ∈ rows, wRowHyp r) → ∀ st : WLoadState,
      (loadWeather rows st).store.obs =
        applyAsgs (rows.filterMap wRowObsAsg) st.store.obs := by
  induction rows with
  | nil => intro _ st; rfl
  | cons r t ih =>
    intro h st
    simp only [loadWeather, List.foldl_cons] at ih ⊢
    rw [ih (fun x hx => h x (List.mem_cons_of_mem r hx)) (loadWeatherRow st r)]
    rw [loadWeatherRow_obs st r (h r (List.mem_cons_self r t))]
    rw [List.filterMap_cons]
    cases has : wRowObsAsg r with
    | none => rfl
    | some kv => rfl

/-- Station component of a weather load started from a bare store. -/
theorem loadWeatherStore_stations (rows : List WeatherRow)
    (h : ∀ r ∈ rows, wRowHyp r) (s : WStore) :
    (loadWeatherStore rows s).stations =
      applyAsgs (rows.filterMap wRowStationAsg) s.stations :=
  loadWeather_stations rows h ⟨s, 0, 0, 0, 0⟩

/-- Observation component of a weather load started from a bare store. -/
theorem loadWeatherStore_obs (rows : List WeatherRow)
    (h : ∀ r ∈ rows, wRowHyp r) (s : WStore) :
    (loadWeatherStore rows s).obs =
      applyAsgs (rows.filterMap wRowObsAsg) s.obs :=
  loadWeather_obs rows h ⟨s, 0, 0, 0, 0⟩

/-- C9 (amended): reloading the same rows with the collision loader always
leaves the stored collision table unchanged; the weather loader has the same
property provided every row bearing a climate id also supplies parseable
coordinates.  (Without that proviso a row skipped on the first pass, its
station not yet created, inserts a new observation on the second pass: see
the counterexample.) -/
theorem c9_amended_idempotence :
    (∀ (stations : List Station) (distF : ℚ → ℚ → ℚ → ℚ → ℚ)
      (rows : List CollisionRow) (s : CollStore),
      loadCollisionsStore stations distF rows
          (loadCollisionsStore stations distF rows s) =
        loadCollisionsStore stations distF rows s) ∧
    (∀ rows : List WeatherRow, (∀ r ∈ rows, wRowHyp r) → ∀ s : WStore,
      loadWeatherStore rows (loadWeatherStore rows s) = loadWeatherStore rows s) := by
  constructor
  · intro stations distF rows s
    unfold loadCollisionsStore
    rw [loadCollisions_store, loadCollisions_store]
    exact applyAsgs_idem _ _
  · intro rows h s
    have ext : ∀ x y : WStore, x.stations = y.stations → x.obs = y.obs → x = y := by
      intro x y h1 h2
      cases x
      cases y
      cases h1
      cases h2
      rfl
    apply ext
    · rw [loadWeatherStore_stations rows h, loadWeatherStore_stations rows h]
      exact applyAsgs_idem _ _
    · rw [loadWeatherStore_obs rows h, loadWeatherStore_obs rows h]
      exact applyAsgs_idem _ _

/-- A weather row with a climate id and a date but no coordinates (its
station is created only by the later row). -/
def c9w1 : WeatherRow :=
  { station_name := some "N1", climate_id := some "X",
    date_str := some "2024-02-01", min_temp := some "-1.0" }

/-- A weather row for the same station carrying coordinates. -/
def c9w2 : WeatherRow :=
  { station_name := some "N2", climate_id := some "X",
    longitude := some "-114.01", latitude := some "51.12",
    date_str := some "2024-02-02", min_temp := some "-2.0" }

/-- C9 counterexample: loading the two-row file once leaves no observation
for (X, 2024-02-01) (the row is skipped: station unknown, no coordinates);
loading it a second time creates that observation, so the stored row set and
the observation count change between the first and the second load. -/
theorem c9_counterexample_weather_reload :
    (loadWeatherStore [c9w1, c9w2]
        (loadWeatherStore [c9w1, c9w2] emptyWStore)).obs ("X", ⟨2024, 2, 1⟩) ≠
      (loadWeatherStore [c9w1, c9w2] emptyWStore).obs ("X", ⟨2024, 2, 1⟩) := by
  decide

instance (row : WeatherRow) : Decidable (wRowHyp row) := by
  unfold wRowHyp
  infer_instance

/-- A well-formed weather row (climate id and both coordinates). -/
def c9wGood : WeatherRow :=
  { station_name := some "G", climate_id := some "Y",
    longitude := some "-114.0", latitude := some "51.0",
    date_str := some "2024-03-01", min_temp := some "1.0" }

/-- A well-formed collision row. -/
def c9cRow : CollisionRow :=
  { id_lower := some "C9-1", longitude := some "-114.02", latitude := some "50.95",
    start_dt := some "2024/01/02 01:00:00 AM", description := some "d",
    incident_info := some "i", count := some "2", quadrant := some "NE" }

/-- C9 witness: the proviso holds for a concrete one-row weather file, and
both loaders are idempotent on their concrete inputs. -/
theorem c9_witness :
    (∀ r ∈ [c9wGood], wRowHyp r) ∧
    loadWeatherStore [c9wGood] (loadWeatherStore [c9wGood] emptyWStore) =
      loadWeatherStore [c9wGood] emptyWStore ∧
    loadCollisionsStore [] (fun _ _ _ _ => 0) [c9cRow]
        (loadCollisionsStore [] (fun _ _ _ _ => 0) [c9cRow] emptyCollStore) =
      loadCollisionsStore [] (fun _ _ _ _ => 0) [c9cRow] emptyCollStore :=
  ⟨by decide, c9_amended_idempotence.2 [c9wGood] (by decide) emptyWStore,
   c9_amended_idempotence.1 [] (fun _ _ _ _ => 0) [c9cRow] emptyCollStore⟩
